import Mathlib

/-!
Verification development for the donor-relationship-management state layer
(the `useData` hook): entity collections, the per-entity mutation actions,
and the backup layer (JSON snapshot create / restore / restoreFromFile).

The in-memory store is modelled as an explicit record of collections; every
action becomes a pure state-passing function.  Wall-clock inputs
(`Date.now()`, `new Date().toISOString()`, `Math.random()`) are injected as
explicit parameters.  All date arithmetic assumes a UTC runtime (the source
mixes `setMonth`-style local-time mutation with `toISOString`; in a UTC
environment the two coincide).
-/

set_option maxHeartbeats 1000000

/-- Donation method: `'Online' | 'Cash'`. -/
inductive Method where
  | online
  | cash
deriving DecidableEq, Repr

/-- Donation purpose, from `donationPurposes` in `data/constants.ts`. -/
inductive Purpose where
  | sadaqa          -- 'Sadaqa/Hadiya/Atiyat'
  | zakat
  | fitrana
  | qurbani
  | sponsorChild    -- 'Sponsor a Child'
  | cleanWater
  | sastiRoti
  | disasterManagement
  | custom
deriving DecidableEq, Repr

/-- Recurring option, from `recurringOptions`: `'None' | 'Weekly' | 'Monthly' | 'Annually'`. -/
inductive Recurring where
  | none
  | weekly
  | monthly
  | annually
deriving DecidableEq, Repr

/-- Pledge status: `'Pending' | 'Due' | 'Completed'`. -/
inductive PledgeStatus where
  | pending
  | due
  | completed
deriving DecidableEq, Repr

/-- RecurringProfile status: `'Active' | 'Paused' | 'Cancelled'`. -/
inductive RecStatus where
  | active
  | paused
  | cancelled
deriving DecidableEq, Repr

/-- User status: `'Active' | 'Inactive'`. -/
inductive UserStatus where
  | active
  | inactive
deriving DecidableEq, Repr

/-- OutboxItem status: `'Ready to Send' | 'Sent' | 'Failed'`. -/
inductive OutboxStatus where
  | ready
  | sent
  | failed
deriving DecidableEq, Repr

/-- QueuedCommunication status: `'Queued' | 'Sent' | 'Failed'`. -/
inductive QStatus where
  | queued
  | sent
  | failed
deriving DecidableEq, Repr

/-- CommunicationLog channel: `'Email' | 'WhatsApp' | 'Call' | 'Meeting' | 'Print' | 'Download'`. -/
inductive LogChannel where
  | email
  | whatsapp
  | call
  | meeting
  | print
  | download
deriving DecidableEq, Repr

/-- Two-valued channel: `'Email' | 'WhatsApp'`. -/
inductive EWChannel where
  | email
  | whatsapp
deriving DecidableEq, Repr

/-- CommunicationTemplate type: `'DonationThankYou' | 'PledgeReminder' | 'GeneralUpdate'`. -/
inductive TplType where
  | donationThankYou
  | pledgeReminder
  | generalUpdate
deriving DecidableEq, Repr

/-- Permission closed enum from `types.ts`. -/
inductive Permission where
  | donorsView
  | donorsCreate
  | donorsEdit
  | donorsDelete
  | receiptsView
  | receiptsCreate
  | receiptsDelete
  | reportsView
  | settingsManage
  | usersManage
deriving DecidableEq, Repr

/-- `DonationHistory` entry embedded in a Donor. -/
structure DonationHistory where
  date : String
  amount : Int
  receiptId : String
deriving DecidableEq, Repr

/-- `CommunicationLog` entry embedded in a Donor. -/
structure CommunicationLog where
  id : String
  date : String
  channel : LogChannel
  subjectOrTemplate : String
  notes : String
  userId : String
deriving DecidableEq, Repr

/-- `Contact` entry embedded in a Donor. -/
structure Contact where
  id : String
  name : String
  relationship : String
  email : String
  phone : String
  isPrimary : Bool
deriving DecidableEq, Repr

/-- `Tag` entity. -/
structure Tag where
  id : String
  name : String
  color : String
deriving DecidableEq, Repr

/-- `Donor` entity.  Optional TS fields (`tagIds?` etc.) become `Option`. -/
structure Donor where
  id : String
  name : String
  email : String
  phone : String
  address : String
  joinDate : String
  donationHistory : List DonationHistory
  tagIds : Option (List String) := Option.none
  notes : Option String := Option.none
  communicationLogs : Option (List CommunicationLog) := Option.none
  contacts : Option (List Contact) := Option.none
deriving DecidableEq, Repr

/-- `Donation` entity. -/
structure Donation where
  id : String
  donorId : String
  amount : Int
  date : String
  method : Method
  purpose : Purpose
  customPurpose : Option String := Option.none
  recurring : Recurring
deriving DecidableEq, Repr

/-- `PledgeTask` entry embedded in a Pledge. -/
structure PledgeTask where
  id : String
  description : String
  completed : Bool
deriving DecidableEq, Repr

/-- `Pledge` entity. -/
structure Pledge where
  id : String
  donorId : String
  amount : Int
  dueDate : String
  status : PledgeStatus
  tasks : Option (List PledgeTask) := Option.none
deriving DecidableEq, Repr

/-- `RecurringProfile` entity.  The TS `frequency` type excludes `'None'`;
we reuse `Recurring` since creation is guarded by `recurring !== 'None'`. -/
structure RecurringProfile where
  id : String
  donorId : String
  amount : Int
  frequency : Recurring
  startDate : String
  nextDueDate : String
  status : RecStatus
  purpose : Purpose
  customPurpose : Option String := Option.none
  method : Method
deriving DecidableEq, Repr

/-- `Role` entity; `isSystemRole?: boolean` becomes `Option Bool`. -/
structure Role where
  id : String
  name : String
  permissions : List Permission
  isSystemRole : Option Bool := Option.none
deriving DecidableEq, Repr

/-- `User` entity. -/
structure User where
  id : String
  name : String
  email : String
  roleId : String
  status : UserStatus
  avatar : Option String := Option.none
  lastLogin : String
deriving DecidableEq, Repr

/-- `CommunicationTemplate` embedded in settings. -/
structure CommunicationTemplate where
  id : String
  name : String
  ttype : TplType
  channel : EWChannel
  subject : Option String := Option.none
  body : String
deriving DecidableEq, Repr

/-- `OrganizationSettings` entity. -/
structure OrganizationSettings where
  name : String
  logo : String
  address : String
  website : String
  phone : String
  email : String
  whatsappNumber : String
  receiptThankYouMessage : String
  communicationTemplates : List CommunicationTemplate
  tags : List Tag
deriving DecidableEq, Repr

/-- The discriminated part of `OutboxItem`: receipt or template variant. -/
inductive OutboxInfo where
  | receipt (donationId : String)
  | template (donorId : String) (templateId : String)
deriving DecidableEq, Repr

/-- `OutboxItem` entity. -/
structure OutboxItem where
  id : String
  status : OutboxStatus
  addedAt : String
  sentAt : Option String := Option.none
  error : Option String := Option.none
  info : OutboxInfo
deriving DecidableEq, Repr

/-- `QueuedCommunication` entity. -/
structure QueuedCommunication where
  id : String
  donorId : String
  templateId : String
  channel : EWChannel
  status : QStatus
  queuedAt : String
  sentAt : Option String := Option.none
  error : Option String := Option.none
deriving DecidableEq, Repr

/-- JSON values, the target of `JSON.stringify` and the result of `JSON.parse`.
Numbers are modelled as integers (all numeric fields in the store are
integral and no arithmetic is performed on serialized numbers). -/
inductive JVal where
  | null
  | bool (b : Bool)
  | num (n : Int)
  | str (s : String)
  | arr (xs : List JVal)
  | obj (kvs : List (String × JVal))

/-- Property lookup in a JSON object literal, first match wins. -/
def jLookup : List (String × JVal) → String → Option JVal
  | [], _ => Option.none
  | (k, v) :: rest, key => if k = key then some v else jLookup rest key

/-- JS property access `v.key`: `none` models `undefined`.  Property access on
primitives and arrays yields `undefined`; the `null` receiver (which throws a
TypeError in JS) is handled at its single use site, `restoreFromFile`. -/
def JVal.getProp : JVal → String → Option JVal
  | JVal.obj kvs, key => jLookup kvs key
  | _, _ => Option.none

/-- JS truthiness of a possibly-undefined value. -/
def jsTruthy : Option JVal → Bool
  | Option.none => false
  | some JVal.null => false
  | some (JVal.bool b) => b
  | some (JVal.num n) => n != 0
  | some (JVal.str s) => s != ""
  | some (JVal.arr _) => true
  | some (JVal.obj _) => true

/-- Minimal JSON string escaping (quote, backslash, newline).  Only used for
the backup `size` bookkeeping field, which no claim depends on. -/
def jsonEscape (s : String) : String :=
  s.foldl (fun acc c =>
    if c = '"' then acc ++ "\\\""
    else if c = '\\' then acc ++ "\\\\"
    else if c = '\n' then acc ++ "\\n"
    else acc.push c) ""

mutual

/-- Compact JSON rendering.  The source pretty-prints with indent 2 and takes
the Blob byte size; only the backup `size` field consumes this, and no claim
mentions `size`, so a compact rendering stands in for it. -/
def jRender : JVal → String
  | JVal.null => "null"
  | JVal.bool true => "true"
  | JVal.bool false => "false"
  | JVal.num n => toString n
  | JVal.str s => "\"" ++ jsonEscape s ++ "\""
  | JVal.arr xs => "[" ++ jRenderArr xs ++ "]"
  | JVal.obj kvs => "\x7b" ++ jRenderObj kvs ++ "\x7d"

/-- Render a JSON array body. -/
def jRenderArr : List JVal → String
  | [] => ""
  | [x] => jRender x
  | x :: xs => jRender x ++ "," ++ jRenderArr xs

/-- Render a JSON object body. -/
def jRenderObj : List (String × JVal) → String
  | [] => ""
  | [(k, v)] => "\"" ++ jsonEscape k ++ "\":" ++ jRender v
  | (k, v) :: kvs => "\"" ++ jsonEscape k ++ "\":" ++ jRender v ++ "," ++ jRenderObj kvs

end

/-- `Backup` entity.  `data` holds the JSON document (the source stores the
serialized string; parsing it back is the identity on the document). -/
structure Backup where
  id : String
  date : String
  size : Nat
  data : JVal

/-- The in-memory store held by `useData`: one field per `useState` collection. -/
structure St where
  donors : List Donor
  donations : List Donation
  pledges : List Pledge
  recurringProfiles : List RecurringProfile
  users : List User
  roles : List Role
  settings : OrganizationSettings
  outbox : List OutboxItem
  communicationQueue : List QueuedCommunication
  tags : List Tag
  backups : List Backup

/-- `mockTags` from `data/mockData.ts`. -/
def mockTags : List Tag :=
  [ { id := "tag-1", name := "Volunteer",
      color := "bg-blue-100 text-blue-800 dark:bg-blue-900 dark:text-blue-200" },
    { id := "tag-2", name := "Gala 2023",
      color := "bg-purple-100 text-purple-800 dark:bg-purple-900 dark:text-purple-200" },
    { id := "tag-3", name := "Corporate",
      color := "bg-yellow-100 text-yellow-800 dark:bg-yellow-900 dark:text-yellow-200" },
    { id := "tag-4", name := "Major Donor",
      color := "bg-red-100 text-red-800 dark:bg-red-900 dark:text-red-200" } ]

/-- `mockSettings` from `data/mockData.ts`; it is the fallback used by
`restoreStateFromData` when the parsed data has no truthy `settings` field. -/
def mockSettings : OrganizationSettings :=
  { name := "Alkahaf Donor System"
    logo := ""
    address := "123 Charity Lane, Kindness City, 12345"
    website := "www.alkahaf.org"
    phone := "1-800-GIVE-NOW"
    email := "info@alkahaf.org"
    whatsappNumber := "12223334444"
    receiptThankYouMessage := "Thank you for your generous contribution!"
    communicationTemplates :=
      [ { id := "template-1", name := "Standard Thank You (Email)",
          ttype := TplType.donationThankYou, channel := EWChannel.email,
          subject := some "Thank you for your donation!",
          body := "Dear \x7b\x7bdonorName\x7d\x7d,\n\nThank you for your generous donation to \x7b\x7borgName\x7d\x7d." },
        { id := "template-2", name := "Standard Thank You (WhatsApp)",
          ttype := TplType.donationThankYou, channel := EWChannel.whatsapp,
          body := "Dear \x7b\x7bdonorName\x7d\x7d, thank you for your generous donation to \x7b\x7borgName\x7d\x7d!" } ]
    tags := mockTags }

/-- Leap year test (Gregorian), as used by JS `Date`. -/
def isLeap (y : Nat) : Bool :=
  (y % 4 = 0 && y % 100 != 0) || y % 400 = 0

/-- Days in a month (month is 1-based). -/
def daysInMonth (y m : Nat) : Nat :=
  if m = 1 then 31
  else if m = 2 then (if isLeap y then 29 else 28)
  else if m = 3 then 31
  else if m = 4 then 30
  else if m = 5 then 31
  else if m = 6 then 30
  else if m = 7 then 31
  else if m = 8 then 31
  else if m = 9 then 30
  else if m = 10 then 31
  else if m = 11 then 30
  else 31

/-- A calendar date, month 1-based, as JS `Date` holds it in UTC. -/
structure JDate where
  y : Nat
  m : Nat
  d : Nat
deriving DecidableEq, Repr

/-- Split a character list on dashes (the field separator of an ISO date). -/
def splitOnDash : List Char → List (List Char)
  | [] => [[]]
  | c :: rest =>
    let r := splitOnDash rest
    if c = '-' then [] :: r
    else
      match r with
      | [] => [[c]]
      | g :: gs => (c :: g) :: gs

/-- Decimal value of a digit sequence; `none` on a non-digit. -/
def digitsVal (cs : List Char) : Option Nat :=
  cs.foldl
    (fun acc c =>
      match acc with
      | Option.none => Option.none
      | some n => if c.isDigit then some (n * 10 + (c.toNat - 48)) else Option.none)
    (some 0)

/-- Parse a strict ISO `YYYY-MM-DD` date, as `new Date(s)` accepts in UTC;
invalid dates give `none` (JS: an Invalid Date, on which `toISOString`
throws).  Non-ISO shapes fall outside the model. -/
def parseDate (s : String) : Option JDate :=
  match splitOnDash s.data with
  | [ys, ms, ds] =>
    if ys.length = 4 && ms.length = 2 && ds.length = 2 then
      match digitsVal ys, digitsVal ms, digitsVal ds with
      | some y, some m, some d =>
        if 1 ≤ m && m ≤ 12 && 1 ≤ d && d ≤ daysInMonth y m then some ⟨y, m, d⟩
        else Option.none
      | _, _, _ => Option.none
    else Option.none
  | _ => Option.none

/-- One day-overflow normalization step, as JS `Date` performs after
`setDate`/`setMonth`/`setFullYear`; a single step suffices because at most
10 excess days can arise (`d + 7 ≤ 38`). -/
def fixupDate (y m d : Nat) : JDate :=
  let dim := daysInMonth y m
  if d > dim then
    if m = 12 then ⟨y + 1, 1, d - dim⟩ else ⟨y, m + 1, d - dim⟩
  else ⟨y, m, d⟩

/-- Zero-pad a number to two digits. -/
def pad2 (n : Nat) : String :=
  if n < 10 then "0" ++ toString n else toString n

/-- Zero-pad a year to four digits. -/
def pad4 (n : Nat) : String :=
  if n < 10 then "000" ++ toString n
  else if n < 100 then "00" ++ toString n
  else if n < 1000 then "0" ++ toString n
  else toString n

/-- Format as `toISOString().split('T')[0]` does: `YYYY-MM-DD`. -/
def formatDate (dt : JDate) : String :=
  pad4 dt.y ++ "-" ++ pad2 dt.m ++ "-" ++ pad2 dt.d

/-- The `calculateNextDueDate` helper inside `actions.recurring.add`:
Weekly adds 7 days (`setDate(getDate()+7)`), Monthly adds one month keeping
the day-of-month (`setMonth(getMonth()+1)`, overflow days roll into the next
month), Annually adds one year (`setFullYear(+1)`, Feb 29 rolls to Mar 1).
On an unparseable start date the source throws; the model returns the input
unchanged — no theorem exercises that branch. -/
def calculateNextDueDate (startDate : String) (frequency : Recurring) : String :=
  match parseDate startDate with
  | Option.none => startDate
  | some dt =>
    match frequency with
    | Recurring.weekly => formatDate (fixupDate dt.y dt.m (dt.d + 7))
    | Recurring.monthly =>
      if dt.m = 12 then formatDate (fixupDate (dt.y + 1) 1 dt.d)
      else formatDate (fixupDate dt.y (dt.m + 1) dt.d)
    | Recurring.annually => formatDate (fixupDate (dt.y + 1) dt.m dt.d)
    | Recurring.none => formatDate ⟨dt.y, dt.m, dt.d⟩

/-! ## Mutation layer: per-entity actions of `useData`, as pure state functions.
Each `Promise`-returning action performs synchronous in-memory mutation; the
returned value (where present) is paired with the new state. -/

/-- Input to `donors.add`: `Omit<Donor, 'id' | 'donationHistory'>`. -/
structure DonorInput where
  name : String
  email : String
  phone : String
  address : String
  joinDate : String
  tagIds : Option (List String) := Option.none
  notes : Option String := Option.none
  communicationLogs : Option (List CommunicationLog) := Option.none
  contacts : Option (List Contact) := Option.none
deriving DecidableEq, Repr

/-- `actions.donors.add`: fresh id `donor-${Date.now()}`, empty history. -/
def donorsAdd (data : DonorInput) (now : Nat) (s : St) : Donor × St :=
  let newDonor : Donor :=
    { id := "donor-" ++ toString now, name := data.name, email := data.email,
      phone := data.phone, address := data.address, joinDate := data.joinDate,
      donationHistory := [], tagIds := data.tagIds, notes := data.notes,
      communicationLogs := data.communicationLogs, contacts := data.contacts }
  (newDonor, { s with donors := s.donors ++ [newDonor] })

/-- `actions.donors.update`: wholesale replacement of the record matching `id`. -/
def donorsUpdate (data : Donor) (s : St) : St :=
  { s with donors := s.donors.map (fun donor => if donor.id = data.id then data else donor) }

/-- `actions.donors.delete`: removes the donor and filters donations and
pledges whose `donorId` matches.  No other collection is touched. -/
def donorsDelete (id : String) (s : St) : St :=
  { s with
    donors := s.donors.filter (fun donor => donor.id ≠ id)
    donations := s.donations.filter (fun donation => donation.donorId ≠ id)
    pledges := s.pledges.filter (fun pledge => pledge.donorId ≠ id) }

/-- `actions.donors.deleteBulk`: set-membership variant of `delete`. -/
def donorsDeleteBulk (ids : List String) (s : St) : St :=
  { s with
    donors := s.donors.filter (fun donor => ¬ donor.id ∈ ids)
    donations := s.donations.filter (fun donation => ¬ donation.donorId ∈ ids)
    pledges := s.pledges.filter (fun pledge => ¬ pledge.donorId ∈ ids) }

/-- Input to `logCommunication`: `Omit<CommunicationLog, 'id'>`. -/
structure CommLogInput where
  date : String
  channel : LogChannel
  subjectOrTemplate : String
  notes : String
  userId : String
deriving DecidableEq, Repr

/-- `actions.donors.logCommunication`: appends a log (id `comm-${Date.now()}`)
to the matching donor. -/
def donorsLogCommunication (donorId : String) (logData : CommLogInput) (now : Nat) (s : St) : St :=
  let newLog : CommunicationLog :=
    { id := "comm-" ++ toString now, date := logData.date, channel := logData.channel,
      subjectOrTemplate := logData.subjectOrTemplate, notes := logData.notes,
      userId := logData.userId }
  { s with donors := s.donors.map (fun donor =>
      if donor.id = donorId then
        { donor with communicationLogs := some ((donor.communicationLogs.getD []) ++ [newLog]) }
      else donor) }

/-- `actions.donors.logCommunicationBulk`: per-donor log id
`comm-${donor.id}-${Date.now()}`. -/
def donorsLogCommunicationBulk (donorIds : List String) (logData : CommLogInput) (now : Nat)
    (s : St) : St :=
  { s with donors := s.donors.map (fun donor =>
      if donor.id ∈ donorIds then
        let newLog : CommunicationLog :=
          { id := "comm-" ++ donor.id ++ "-" ++ toString now, date := logData.date,
            channel := logData.channel, subjectOrTemplate := logData.subjectOrTemplate,
            notes := logData.notes, userId := logData.userId }
        { donor with communicationLogs := some ((donor.communicationLogs.getD []) ++ [newLog]) }
      else donor) }

/-- Input to `recurring.add`: `Omit<RecurringProfile, 'id' | 'status' | 'nextDueDate'>`. -/
structure RecurringInput where
  donorId : String
  amount : Int
  frequency : Recurring
  startDate : String
  purpose : Purpose
  customPurpose : Option String := Option.none
  method : Method
deriving DecidableEq, Repr

/-- `actions.recurring.add`: fresh id `rec-${Date.now()}`, status Active,
`nextDueDate` derived from `startDate + frequency`. -/
def recurringAdd (data : RecurringInput) (now : Nat) (s : St) : RecurringProfile × St :=
  let newProfile : RecurringProfile :=
    { id := "rec-" ++ toString now, donorId := data.donorId, amount := data.amount,
      frequency := data.frequency, startDate := data.startDate,
      nextDueDate := calculateNextDueDate data.startDate data.frequency,
      status := RecStatus.active, purpose := data.purpose,
      customPurpose := data.customPurpose, method := data.method }
  (newProfile, { s with recurringProfiles := s.recurringProfiles ++ [newProfile] })

/-- `actions.recurring.updateStatus`. -/
def recurringUpdateStatus (id : String) (status : RecStatus) (s : St) : St :=
  { s with recurringProfiles := s.recurringProfiles.map (fun profile =>
      if profile.id = id then { profile with status := status } else profile) }

/-- `actions.recurring.updateStatusBulk`. -/
def recurringUpdateStatusBulk (ids : List String) (status : RecStatus) (s : St) : St :=
  { s with recurringProfiles := s.recurringProfiles.map (fun profile =>
      if profile.id ∈ ids then { profile with status := status } else profile) }

/-- `actions.outbox.add`: prepends a fresh `receipt` item, id
`outbox-${Date.now()}`, status Ready to Send. -/
def outboxAdd (donationId : String) (now : Nat) (nowISO : String) (s : St) : St :=
  let newItem : OutboxItem :=
    { id := "outbox-" ++ toString now, info := OutboxInfo.receipt donationId,
      status := OutboxStatus.ready, addedAt := nowISO }
  { s with outbox := newItem :: s.outbox }

/-- `actions.outbox.addBulk`: prepends one fresh `template` item per donor id. -/
def outboxAddBulk (donorIds : List String) (templateId : String) (now : Nat) (nowISO : String)
    (s : St) : St :=
  let newItems : List OutboxItem := donorIds.map (fun donorId =>
    { id := "outbox-" ++ toString now ++ "-" ++ donorId,
      status := OutboxStatus.ready, addedAt := nowISO,
      info := OutboxInfo.template donorId templateId })
  { s with outbox := newItems ++ s.outbox }

/-- `actions.outbox.updateStatus`: sets the matching item's status
unconditionally; `error: error || item.error` keeps the old error when the
argument is absent or the empty string; `sentAt` is stamped only when the new
status is Sent. -/
def outboxUpdateStatus (outboxId : String) (status : OutboxStatus) (error : Option String)
    (nowISO : String) (s : St) : St :=
  { s with outbox := s.outbox.map (fun item =>
      if item.id = outboxId then
        { item with
          status := status
          error := match error with
            | some e => if e = "" then item.error else some e
            | Option.none => item.error
          sentAt := if status = OutboxStatus.sent then some nowISO else item.sentAt }
      else item) }

/-- `actions.outbox.retry`: sets the matching item back to Ready to Send and
clears its error, whatever its current status. -/
def outboxRetry (outboxId : String) (s : St) : St :=
  { s with outbox := s.outbox.map (fun item =>
      if item.id = outboxId then
        { item with status := OutboxStatus.ready, error := Option.none }
      else item) }

/-- `actions.donations.add`: appends the donation, appends a summary entry to
the owning donor's history, enqueues one outbox receipt item, and — when
`recurring !== 'None'` — creates one recurring profile from the donation.
The same injected timestamp serves the outbox and profile ids (the source
calls `Date.now()` twice within the same tick). -/
def donationsAdd (data : Donation) (now : Nat) (nowISO : String) (s : St) : Donation × St :=
  let s1 := { s with donations := s.donations ++ [data] }
  let s2 := { s1 with donors := s1.donors.map (fun donor =>
      if donor.id = data.donorId then
        { donor with donationHistory := donor.donationHistory ++
            [{ date := data.date, amount := data.amount, receiptId := data.id }] }
      else donor) }
  let s3 := outboxAdd data.id now nowISO s2
  let s4 :=
    if data.recurring ≠ Recurring.none then
      (recurringAdd
        { donorId := data.donorId, amount := data.amount, frequency := data.recurring,
          startDate := data.date, purpose := data.purpose,
          customPurpose := data.customPurpose, method := data.method } now s3).2
    else s3
  (data, s4)

/-- `actions.donations.deleteBulk`: removes the donations and the outbox
`receipt` items that reference them (template items are kept). -/
def donationsDeleteBulk (ids : List String) (s : St) : St :=
  { s with
    donations := s.donations.filter (fun donation => ¬ donation.id ∈ ids)
    outbox := s.outbox.filter (fun item =>
      match item.info with
      | OutboxInfo.receipt donationId => ¬ donationId ∈ ids
      | OutboxInfo.template _ _ => true) }

/-- Input to `pledges.add`: `Omit<Pledge, 'id' | 'status' | 'tasks'>`. -/
structure PledgeInput where
  donorId : String
  amount : Int
  dueDate : String
deriving DecidableEq, Repr

/-- `actions.pledges.add`: fresh id, status Pending, empty task list. -/
def pledgesAdd (data : PledgeInput) (now : Nat) (s : St) : Pledge × St :=
  let newPledge : Pledge :=
    { id := "pledge-" ++ toString now, donorId := data.donorId, amount := data.amount,
      dueDate := data.dueDate, status := PledgeStatus.pending, tasks := some [] }
  (newPledge, { s with pledges := s.pledges ++ [newPledge] })

/-- `actions.pledges.update`. -/
def pledgesUpdate (data : Pledge) (s : St) : St :=
  { s with pledges := s.pledges.map (fun pledge => if pledge.id = data.id then data else pledge) }

/-- `actions.pledges.deleteBulk`. -/
def pledgesDeleteBulk (ids : List String) (s : St) : St :=
  { s with pledges := s.pledges.filter (fun pledge => ¬ pledge.id ∈ ids) }

/-- `actions.pledges.updateStatusBulk`. -/
def pledgesUpdateStatusBulk (ids : List String) (status : PledgeStatus) (s : St) : St :=
  { s with pledges := s.pledges.map (fun pledge =>
      if pledge.id ∈ ids then { pledge with status := status } else pledge) }

/-- `actions.pledges.addTask`: appends a fresh incomplete task. -/
def pledgesAddTask (pledgeId : String) (description : String) (now : Nat) (s : St) : St :=
  let newTask : PledgeTask :=
    { id := "task-" ++ toString now, description := description, completed := false }
  { s with pledges := s.pledges.map (fun pledge =>
      if pledge.id = pledgeId then
        { pledge with tasks := some ((pledge.tasks.getD []) ++ [newTask]) }
      else pledge) }

/-- `actions.pledges.toggleTask`. -/
def pledgesToggleTask (pledgeId taskId : String) (s : St) : St :=
  { s with pledges := s.pledges.map (fun pledge =>
      if pledge.id = pledgeId then
        { pledge with tasks := some ((pledge.tasks.getD []).map (fun task =>
            if task.id = taskId then { task with completed := ¬ task.completed } else task)) }
      else pledge) }

/-- Input to `users.add`: `Omit<User, 'id' | 'lastLogin'>`. -/
structure UserInput where
  name : String
  email : String
  roleId : String
  status : UserStatus
  avatar : Option String := Option.none
deriving DecidableEq, Repr

/-- `actions.users.add`. -/
def usersAdd (data : UserInput) (now : Nat) (s : St) : User × St :=
  let newUser : User :=
    { id := "user-" ++ toString now, name := data.name, email := data.email,
      roleId := data.roleId, status := data.status, avatar := data.avatar,
      lastLogin := "1970-01-01T00:00:00.000Z" }
  (newUser, { s with users := s.users ++ [newUser] })

/-- `actions.users.update`. -/
def usersUpdate (data : User) (s : St) : St :=
  { s with users := s.users.map (fun user => if user.id = data.id then data else user) }

/-- `actions.users.updateStatus`. -/
def usersUpdateStatus (id : String) (status : UserStatus) (s : St) : St :=
  { s with users := s.users.map (fun user =>
      if user.id = id then { user with status := status } else user) }

/-- Input to `roles.add`: `Omit<Role, 'id'>`. -/
structure RoleInput where
  name : String
  permissions : List Permission
  isSystemRole : Option Bool := Option.none
deriving DecidableEq, Repr

/-- `actions.roles.add`. -/
def rolesAdd (data : RoleInput) (now : Nat) (s : St) : Role × St :=
  let newRole : Role :=
    { id := "role-" ++ toString now, name := data.name,
      permissions := data.permissions, isSystemRole := data.isSystemRole }
  (newRole, { s with roles := s.roles ++ [newRole] })

/-- `actions.roles.update`. -/
def rolesUpdate (data : Role) (s : St) : St :=
  { s with roles := s.roles.map (fun role => if role.id = data.id then data else role) }

/-- `actions.roles.delete`: the one business-rule rejection in the layer —
returns `{error}` (modelled as `some message`) and changes nothing when the
role is a system role (`role?.isSystemRole` truthy) or some user is assigned
to it; otherwise filters the role out and returns no error. -/
def rolesDelete (id : String) (s : St) : Option String × St :=
  let role := s.roles.find? (fun r => r.id = id)
  if (role.map (fun r => r.isSystemRole.getD false)).getD false then
    (some "System roles cannot be deleted.", s)
  else if s.users.any (fun u => u.roleId = id) then
    (some "Cannot delete a role that is assigned to users.", s)
  else
    (Option.none, { s with roles := s.roles.filter (fun role => role.id ≠ id) })

/-- `actions.settings.update`: replaces settings wholesale and mirrors its
`tags` field into the global tags collection. -/
def settingsUpdate (data : OrganizationSettings) (s : St) : St :=
  { s with settings := data, tags := data.tags }

/-- Input to `queue.add`: `Omit<QueuedCommunication, 'id'>`. -/
structure QueueInput where
  donorId : String
  templateId : String
  channel : EWChannel
  status : QStatus
  queuedAt : String
  sentAt : Option String := Option.none
  error : Option String := Option.none
deriving DecidableEq, Repr

/-- `actions.queue.add`: ids `q-${Date.now()}-${Math.random()}`; the random
suffixes are injected positionally. -/
def queueAdd (items : List QueueInput) (now : Nat) (rands : List String) (s : St) : St :=
  let newItems : List QueuedCommunication :=
    (List.zip items rands).map (fun p =>
      { id := "q-" ++ toString now ++ "-" ++ p.2, donorId := p.1.donorId,
        templateId := p.1.templateId, channel := p.1.channel, status := p.1.status,
        queuedAt := p.1.queuedAt, sentAt := p.1.sentAt, error := p.1.error })
  { s with communicationQueue := s.communicationQueue ++ newItems }

/-- Input to `tags.add`: `Omit<Tag, 'id'>`. -/
structure TagInput where
  name : String
  color : String
deriving DecidableEq, Repr

/-- `actions.tags.add`: appends the fresh tag to the tags collection and to
`settings.tags`. -/
def tagsAdd (data : TagInput) (now : Nat) (s : St) : Tag × St :=
  let newTag : Tag := { id := "tag-" ++ toString now, name := data.name, color := data.color }
  (newTag, { s with
    tags := s.tags ++ [newTag]
    settings := { s.settings with tags := s.settings.tags ++ [newTag] } })

/-- `actions.tags.update`: updates the tag in both lists. -/
def tagsUpdate (tag : Tag) (s : St) : St :=
  { s with
    tags := s.tags.map (fun t => if t.id = tag.id then tag else t)
    settings := { s.settings with
      tags := s.settings.tags.map (fun t => if t.id = tag.id then tag else t) } }

/-- `actions.tags.delete`: removes the tag from the tags collection, from
`settings.tags`, and from every donor's `tagIds` (a donor with no `tagIds`
field gets an explicit empty list, mirroring `(donor.tagIds || []).filter`). -/
def tagsDelete (id : String) (s : St) : St :=
  { s with
    tags := s.tags.filter (fun t => t.id ≠ id)
    settings := { s.settings with tags := s.settings.tags.filter (fun t => t.id ≠ id) }
    donors := s.donors.map (fun donor =>
      { donor with tagIds := some ((donor.tagIds.getD []).filter (fun tagId => tagId ≠ id)) }) }

/-! ## Backup layer: JSON encoding of the store (`JSON.stringify`), property
reads with `|| default` fallbacks (`restoreStateFromData`), and the three
backup actions. -/

/-- String projection of a JSON value. -/
def jStr? : JVal → Option String
  | JVal.str s => some s
  | _ => Option.none

/-- Integer projection of a JSON value. -/
def jInt? : JVal → Option Int
  | JVal.num n => some n
  | _ => Option.none

/-- Boolean projection of a JSON value. -/
def jBool? : JVal → Option Bool
  | JVal.bool b => some b
  | _ => Option.none

/-- Read a string property. -/
def getStr (v : JVal) (key : String) : Option String := (v.getProp key).bind jStr?

/-- Read an integer property. -/
def getInt (v : JVal) (key : String) : Option Int := (v.getProp key).bind jInt?

/-- Read a boolean property. -/
def getBool (v : JVal) (key : String) : Option Bool := (v.getProp key).bind jBool?

/-- Decode every element of a JSON list. -/
def decodeAll (dec : JVal → Option α) : List JVal → Option (List α)
  | [] => some []
  | x :: xs =>
    match dec x, decodeAll dec xs with
    | some a, some rest => some (a :: rest)
    | _, _ => Option.none

/-- Decode a JSON array into a typed list. -/
def decodeListWith (dec : JVal → Option α) : JVal → Option (List α)
  | JVal.arr xs => decodeAll dec xs
  | _ => Option.none

/-- Decode an optional (possibly absent) property. -/
def decodeOptWith (dec : JVal → Option α) : Option JVal → Option (Option α)
  | Option.none => some Option.none
  | some v => (dec v).map some

/-- Emit a key only when the optional field is present, as `JSON.stringify`
omits `undefined` properties. -/
def optField (key : String) : Option JVal → List (String × JVal)
  | some v => [(key, v)]
  | Option.none => []

/-- Serialize `Method` to its source string. -/
def encodeMethod : Method → JVal
  | Method.online => JVal.str "Online"
  | Method.cash => JVal.str "Cash"

/-- Parse `Method` back. -/
def decodeMethod : JVal → Option Method
  | JVal.str "Online" => some Method.online
  | JVal.str "Cash" => some Method.cash
  | _ => Option.none

/-- Serialize `Purpose` to its source string. -/
def encodePurpose : Purpose → JVal
  | Purpose.sadaqa => JVal.str "Sadaqa/Hadiya/Atiyat"
  | Purpose.zakat => JVal.str "Zakat"
  | Purpose.fitrana => JVal.str "Fitrana"
  | Purpose.qurbani => JVal.str "Qurbani"
  | Purpose.sponsorChild => JVal.str "Sponsor a Child"
  | Purpose.cleanWater => JVal.str "Clean Water"
  | Purpose.sastiRoti => JVal.str "Sasti Roti"
  | Purpose.disasterManagement => JVal.str "Disaster Management"
  | Purpose.custom => JVal.str "Custom"

/-- Parse `Purpose` back. -/
def decodePurpose : JVal → Option Purpose
  | JVal.str "Sadaqa/Hadiya/Atiyat" => some Purpose.sadaqa
  | JVal.str "Zakat" => some Purpose.zakat
  | JVal.str "Fitrana" => some Purpose.fitrana
  | JVal.str "Qurbani" => some Purpose.qurbani
  | JVal.str "Sponsor a Child" => some Purpose.sponsorChild
  | JVal.str "Clean Water" => some Purpose.cleanWater
  | JVal.str "Sasti Roti" => some Purpose.sastiRoti
  | JVal.str "Disaster Management" => some Purpose.disasterManagement
  | JVal.str "Custom" => some Purpose.custom
  | _ => Option.none

/-- Serialize `Recurring` to its source string. -/
def encodeRecurring : Recurring → JVal
  | Recurring.none => JVal.str "None"
  | Recurring.weekly => JVal.str "Weekly"
  | Recurring.monthly => JVal.str "Monthly"
  | Recurring.annually => JVal.str "Annually"

/-- Parse `Recurring` back. -/
def decodeRecurring : JVal → Option Recurring
  | JVal.str "None" => some Recurring.none
  | JVal.str "Weekly" => some Recurring.weekly
  | JVal.str "Monthly" => some Recurring.monthly
  | JVal.str "Annually" => some Recurring.annually
  | _ => Option.none

/-- Serialize `PledgeStatus`. -/
def encodePledgeStatus : PledgeStatus → JVal
  | PledgeStatus.pending => JVal.str "Pending"
  | PledgeStatus.due => JVal.str "Due"
  | PledgeStatus.completed => JVal.str "Completed"

/-- Parse `PledgeStatus` back. -/
def decodePledgeStatus : JVal → Option PledgeStatus
  | JVal.str "Pending" => some PledgeStatus.pending
  | JVal.str "Due" => some PledgeStatus.due
  | JVal.str "Completed" => some PledgeStatus.completed
  | _ => Option.none

/-- Serialize `RecStatus`. -/
def encodeRecStatus : RecStatus → JVal
  | RecStatus.active => JVal.str "Active"
  | RecStatus.paused => JVal.str "Paused"
  | RecStatus.cancelled => JVal.str "Cancelled"

/-- Parse `RecStatus` back. -/
def decodeRecStatus : JVal → Option RecStatus
  | JVal.str "Active" => some RecStatus.active
  | JVal.str "Paused" => some RecStatus.paused
  | JVal.str "Cancelled" => some RecStatus.cancelled
  | _ => Option.none

/-- Serialize `UserStatus`. -/
def encodeUserStatus : UserStatus → JVal
  | UserStatus.active => JVal.str "Active"
  | UserStatus.inactive => JVal.str "Inactive"

/-- Parse `UserStatus` back. -/
def decodeUserStatus : JVal → Option UserStatus
  | JVal.str "Active" => some UserStatus.active
  | JVal.str "Inactive" => some UserStatus.inactive
  | _ => Option.none

/-- Serialize `OutboxStatus` to its source string. -/
def encodeOutboxStatus : OutboxStatus → JVal
  | OutboxStatus.ready => JVal.str "Ready to Send"
  | OutboxStatus.sent => JVal.str "Sent"
  | OutboxStatus.failed => JVal.str "Failed"

/-- Parse `OutboxStatus` back. -/
def decodeOutboxStatus : JVal → Option OutboxStatus
  | JVal.str "Ready to Send" => some OutboxStatus.ready
  | JVal.str "Sent" => some OutboxStatus.sent
  | JVal.str "Failed" => some OutboxStatus.failed
  | _ => Option.none

/-- Serialize `QStatus`. -/
def encodeQStatus : QStatus → JVal
  | QStatus.queued => JVal.str "Queued"
  | QStatus.sent => JVal.str "Sent"
  | QStatus.failed => JVal.str "Failed"

/-- Parse `QStatus` back. -/
def decodeQStatus : JVal → Option QStatus
  | JVal.str "Queued" => some QStatus.queued
  | JVal.str "Sent" => some QStatus.sent
  | JVal.str "Failed" => some QStatus.failed
  | _ => Option.none

/-- Serialize `LogChannel`. -/
def encodeLogChannel : LogChannel → JVal
  | LogChannel.email => JVal.str "Email"
  | LogChannel.whatsapp => JVal.str "WhatsApp"
  | LogChannel.call => JVal.str "Call"
  | LogChannel.meeting => JVal.str "Meeting"
  | LogChannel.print => JVal.str "Print"
  | LogChannel.download => JVal.str "Download"

/-- Parse `LogChannel` back. -/
def decodeLogChannel : JVal → Option LogChannel
  | JVal.str "Email" => some LogChannel.email
  | JVal.str "WhatsApp" => some LogChannel.whatsapp
  | JVal.str "Call" => some LogChannel.call
  | JVal.str "Meeting" => some LogChannel.meeting
  | JVal.str "Print" => some LogChannel.print
  | JVal.str "Download" => some LogChannel.download
  | _ => Option.none

/-- Serialize `EWChannel`. -/
def encodeEWChannel : EWChannel → JVal
  | EWChannel.email => JVal.str "Email"
  | EWChannel.whatsapp => JVal.str "WhatsApp"

/-- Parse `EWChannel` back. -/
def decodeEWChannel : JVal → Option EWChannel
  | JVal.str "Email" => some EWChannel.email
  | JVal.str "WhatsApp" => some EWChannel.whatsapp
  | _ => Option.none

/-- Serialize `TplType`. -/
def encodeTplType : TplType → JVal
  | TplType.donationThankYou => JVal.str "DonationThankYou"
  | TplType.pledgeReminder => JVal.str "PledgeReminder"
  | TplType.generalUpdate => JVal.str "GeneralUpdate"

/-- Parse `TplType` back. -/
def decodeTplType : JVal → Option TplType
  | JVal.str "DonationThankYou" => some TplType.donationThankYou
  | JVal.str "PledgeReminder" => some TplType.pledgeReminder
  | JVal.str "GeneralUpdate" => some TplType.generalUpdate
  | _ => Option.none

/-- Serialize `Permission` to its source string. -/
def encodePermission : Permission → JVal
  | Permission.donorsView => JVal.str "donors:view"
  | Permission.donorsCreate => JVal.str "donors:create"
  | Permission.donorsEdit => JVal.str "donors:edit"
  | Permission.donorsDelete => JVal.str "donors:delete"
  | Permission.receiptsView => JVal.str "receipts:view"
  | Permission.receiptsCreate => JVal.str "receipts:create"
  | Permission.receiptsDelete => JVal.str "receipts:delete"
  | Permission.reportsView => JVal.str "reports:view"
  | Permission.settingsManage => JVal.str "settings:manage"
  | Permission.usersManage => JVal.str "users:manage"

/-- Parse `Permission` back. -/
def decodePermission : JVal → Option Permission
  | JVal.str "donors:view" => some Permission.donorsView
  | JVal.str "donors:create" => some Permission.donorsCreate
  | JVal.str "donors:edit" => some Permission.donorsEdit
  | JVal.str "donors:delete" => some Permission.donorsDelete
  | JVal.str "receipts:view" => some Permission.receiptsView
  | JVal.str "receipts:create" => some Permission.receiptsCreate
  | JVal.str "receipts:delete" => some Permission.receiptsDelete
  | JVal.str "reports:view" => some Permission.reportsView
  | JVal.str "settings:manage" => some Permission.settingsManage
  | JVal.str "users:manage" => some Permission.usersManage
  | _ => Option.none

/-- Serialize a `DonationHistory` entry. -/
def encodeHistoryEntry (h : DonationHistory) : JVal :=
  JVal.obj [("date", JVal.str h.date), ("amount", JVal.num h.amount),
            ("receiptId", JVal.str h.receiptId)]

/-- Parse a `DonationHistory` entry back. -/
def decodeHistoryEntry (v : JVal) : Option DonationHistory := do
  let date ← getStr v "date"
  let amount ← getInt v "amount"
  let receiptId ← getStr v "receiptId"
  pure { date := date, amount := amount, receiptId := receiptId }

/-- Serialize a `CommunicationLog` entry. -/
def encodeCommLog (l : CommunicationLog) : JVal :=
  JVal.obj [("id", JVal.str l.id), ("date", JVal.str l.date),
            ("channel", encodeLogChannel l.channel),
            ("subjectOrTemplate", JVal.str l.subjectOrTemplate),
            ("notes", JVal.str l.notes), ("userId", JVal.str l.userId)]

/-- Parse a `CommunicationLog` entry back. -/
def decodeCommLog (v : JVal) : Option CommunicationLog := do
  let id ← getStr v "id"
  let date ← getStr v "date"
  let channel ← (v.getProp "channel").bind decodeLogChannel
  let subjectOrTemplate ← getStr v "subjectOrTemplate"
  let notes ← getStr v "notes"
  let userId ← getStr v "userId"
  pure { id := id, date := date, channel := channel,
         subjectOrTemplate := subjectOrTemplate, notes := notes, userId := userId }

/-- Serialize a `Contact`. -/
def encodeContact (c : Contact) : JVal :=
  JVal.obj [("id", JVal.str c.id), ("name", JVal.str c.name),
            ("relationship", JVal.str c.relationship), ("email", JVal.str c.email),
            ("phone", JVal.str c.phone), ("isPrimary", JVal.bool c.isPrimary)]

/-- Parse a `Contact` back. -/
def decodeContact (v : JVal) : Option Contact := do
  let id ← getStr v "id"
  let name ← getStr v "name"
  let relationship ← getStr v "relationship"
  let email ← getStr v "email"
  let phone ← getStr v "phone"
  let isPrimary ← getBool v "isPrimary"
  pure { id := id, name := name, relationship := relationship, email := email,
         phone := phone, isPrimary := isPrimary }

/-- Serialize a `Tag`. -/
def encodeTag (t : Tag) : JVal :=
  JVal.obj [("id", JVal.str t.id), ("name", JVal.str t.name), ("color", JVal.str t.color)]

/-- Parse a `Tag` back. -/
def decodeTag (v : JVal) : Option Tag := do
  let id ← getStr v "id"
  let name ← getStr v "name"
  let color ← getStr v "color"
  pure { id := id, name := name, color := color }

/-- Serialize a `Donor`; optional fields are omitted when absent. -/
def encodeDonor (d : Donor) : JVal :=
  JVal.obj ([("id", JVal.str d.id), ("name", JVal.str d.name),
             ("email", JVal.str d.email), ("phone", JVal.str d.phone),
             ("address", JVal.str d.address), ("joinDate", JVal.str d.joinDate),
             ("donationHistory", JVal.arr (d.donationHistory.map encodeHistoryEntry))]
    ++ optField "tagIds" (d.tagIds.map (fun xs => JVal.arr (xs.map JVal.str)))
    ++ optField "notes" (d.notes.map JVal.str)
    ++ optField "communicationLogs" (d.communicationLogs.map (fun xs => JVal.arr (xs.map encodeCommLog)))
    ++ optField "contacts" (d.contacts.map (fun xs => JVal.arr (xs.map encodeContact))))

/-- Parse a `Donor` back. -/
def decodeDonor (v : JVal) : Option Donor := do
  let id ← getStr v "id"
  let name ← getStr v "name"
  let email ← getStr v "email"
  let phone ← getStr v "phone"
  let address ← getStr v "address"
  let joinDate ← getStr v "joinDate"
  let donationHistory ← (v.getProp "donationHistory").bind (decodeListWith decodeHistoryEntry)
  let tagIds ← decodeOptWith (decodeListWith jStr?) (v.getProp "tagIds")
  let notes ← decodeOptWith jStr? (v.getProp "notes")
  let communicationLogs ← decodeOptWith (decodeListWith decodeCommLog) (v.getProp "communicationLogs")
  let contacts ← decodeOptWith (decodeListWith decodeContact) (v.getProp "contacts")
  pure { id := id, name := name, email := email, phone := phone, address := address,
         joinDate := joinDate, donationHistory := donationHistory, tagIds := tagIds,
         notes := notes, communicationLogs := communicationLogs, contacts := contacts }

/-- Serialize a `Donation`. -/
def encodeDonation (d : Donation) : JVal :=
  JVal.obj ([("id", JVal.str d.id), ("donorId", JVal.str d.donorId),
             ("amount", JVal.num d.amount), ("date", JVal.str d.date),
             ("method", encodeMethod d.method), ("purpose", encodePurpose d.purpose)]
    ++ optField "customPurpose" (d.customPurpose.map JVal.str)
    ++ [("recurring", encodeRecurring d.recurring)])

/-- Parse a `Donation` back. -/
def decodeDonation (v : JVal) : Option Donation := do
  let id ← getStr v "id"
  let donorId ← getStr v "donorId"
  let amount ← getInt v "amount"
  let date ← getStr v "date"
  let method ← (v.getProp "method").bind decodeMethod
  let purpose ← (v.getProp "purpose").bind decodePurpose
  let customPurpose ← decodeOptWith jStr? (v.getProp "customPurpose")
  let recurring ← (v.getProp "recurring").bind decodeRecurring
  pure { id := id, donorId := donorId, amount := amount, date := date, method := method,
         purpose := purpose, customPurpose := customPurpose, recurring := recurring }

/-- Serialize a `PledgeTask`. -/
def encodePledgeTask (t : PledgeTask) : JVal :=
  JVal.obj [("id", JVal.str t.id), ("description", JVal.str t.description),
            ("completed", JVal.bool t.completed)]

/-- Parse a `PledgeTask` back. -/
def decodePledgeTask (v : JVal) : Option PledgeTask := do
  let id ← getStr v "id"
  let description ← getStr v "description"
  let completed ← getBool v "completed"
  pure { id := id, description := description, completed := completed }

/-- Serialize a `Pledge`. -/
def encodePledge (p : Pledge) : JVal :=
  JVal.obj ([("id", JVal.str p.id), ("donorId", JVal.str p.donorId),
             ("amount", JVal.num p.amount), ("dueDate", JVal.str p.dueDate),
             ("status", encodePledgeStatus p.status)]
    ++ optField "tasks" (p.tasks.map (fun xs => JVal.arr (xs.map encodePledgeTask))))

/-- Parse a `Pledge` back. -/
def decodePledge (v : JVal) : Option Pledge := do
  let id ← getStr v "id"
  let donorId ← getStr v "donorId"
  let amount ← getInt v "amount"
  let dueDate ← getStr v "dueDate"
  let status ← (v.getProp "status").bind decodePledgeStatus
  let tasks ← decodeOptWith (decodeListWith decodePledgeTask) (v.getProp "tasks")
  pure { id := id, donorId := donorId, amount := amount, dueDate := dueDate,
         status := status, tasks := tasks }

/-- Serialize a `RecurringProfile`. -/
def encodeProfile (r : RecurringProfile) : JVal :=
  JVal.obj ([("id", JVal.str r.id), ("donorId", JVal.str r.donorId),
             ("amount", JVal.num r.amount), ("frequency", encodeRecurring r.frequency),
             ("startDate", JVal.str r.startDate), ("nextDueDate", JVal.str r.nextDueDate),
             ("status", encodeRecStatus r.status), ("purpose", encodePurpose r.purpose)]
    ++ optField "customPurpose" (r.customPurpose.map JVal.str)
    ++ [("method", encodeMethod r.method)])

/-- Parse a `RecurringProfile` back. -/
def decodeProfile (v : JVal) : Option RecurringProfile := do
  let id ← getStr v "id"
  let donorId ← getStr v "donorId"
  let amount ← getInt v "amount"
  let frequency ← (v.getProp "frequency").bind decodeRecurring
  let startDate ← getStr v "startDate"
  let nextDueDate ← getStr v "nextDueDate"
  let status ← (v.getProp "status").bind decodeRecStatus
  let purpose ← (v.getProp "purpose").bind decodePurpose
  let customPurpose ← decodeOptWith jStr? (v.getProp "customPurpose")
  let method ← (v.getProp "method").bind decodeMethod
  pure { id := id, donorId := donorId, amount := amount, frequency := frequency,
         startDate := startDate, nextDueDate := nextDueDate, status := status,
         purpose := purpose, customPurpose := customPurpose, method := method }

/-- Serialize a `Role`. -/
def encodeRole (r : Role) : JVal :=
  JVal.obj ([("id", JVal.str r.id), ("name", JVal.str r.name),
             ("permissions", JVal.arr (r.permissions.map encodePermission))]
    ++ optField "isSystemRole" (r.isSystemRole.map JVal.bool))

/-- Parse a `Role` back. -/
def decodeRole (v : JVal) : Option Role := do
  let id ← getStr v "id"
  let name ← getStr v "name"
  let permissions ← (v.getProp "permissions").bind (decodeListWith decodePermission)
  let isSystemRole ← decodeOptWith jBool? (v.getProp "isSystemRole")
  pure { id := id, name := name, permissions := permissions, isSystemRole := isSystemRole }

/-- Serialize a `User`. -/
def encodeUser (u : User) : JVal :=
  JVal.obj ([("id", JVal.str u.id), ("name", JVal.str u.name),
             ("email", JVal.str u.email), ("roleId", JVal.str u.roleId),
             ("status", encodeUserStatus u.status)]
    ++ optField "avatar" (u.avatar.map JVal.str)
    ++ [("lastLogin", JVal.str u.lastLogin)])

/-- Parse a `User` back. -/
def decodeUser (v : JVal) : Option User := do
  let id ← getStr v "id"
  let name ← getStr v "name"
  let email ← getStr v "email"
  let roleId ← getStr v "roleId"
  let status ← (v.getProp "status").bind decodeUserStatus
  let avatar ← decodeOptWith jStr? (v.getProp "avatar")
  let lastLogin ← getStr v "lastLogin"
  pure { id := id, name := name, email := email, roleId := roleId, status := status,
         avatar := avatar, lastLogin := lastLogin }

/-- Serialize a `CommunicationTemplate`. -/
def encodeTemplate (t : CommunicationTemplate) : JVal :=
  JVal.obj ([("id", JVal.str t.id), ("name", JVal.str t.name),
             ("type", encodeTplType t.ttype), ("channel", encodeEWChannel t.channel)]
    ++ optField "subject" (t.subject.map JVal.str)
    ++ [("body", JVal.str t.body)])

/-- Parse a `CommunicationTemplate` back. -/
def decodeTemplate (v : JVal) : Option CommunicationTemplate := do
  let id ← getStr v "id"
  let name ← getStr v "name"
  let ttype ← (v.getProp "type").bind decodeTplType
  let channel ← (v.getProp "channel").bind decodeEWChannel
  let subject ← decodeOptWith jStr? (v.getProp "subject")
  let body ← getStr v "body"
  pure { id := id, name := name, ttype := ttype, channel := channel,
         subject := subject, body := body }

/-- Serialize `OrganizationSettings`. -/
def encodeSettings (s : OrganizationSettings) : JVal :=
  JVal.obj [("name", JVal.str s.name), ("logo", JVal.str s.logo),
            ("address", JVal.str s.address), ("website", JVal.str s.website),
            ("phone", JVal.str s.phone), ("email", JVal.str s.email),
            ("whatsappNumber", JVal.str s.whatsappNumber),
            ("receiptThankYouMessage", JVal.str s.receiptThankYouMessage),
            ("communicationTemplates", JVal.arr (s.communicationTemplates.map encodeTemplate)),
            ("tags", JVal.arr (s.tags.map encodeTag))]

/-- Parse `OrganizationSettings` back. -/
def decodeSettings (v : JVal) : Option OrganizationSettings := do
  let name ← getStr v "name"
  let logo ← getStr v "logo"
  let address ← getStr v "address"
  let website ← getStr v "website"
  let phone ← getStr v "phone"
  let email ← getStr v "email"
  let whatsappNumber ← getStr v "whatsappNumber"
  let receiptThankYouMessage ← getStr v "receiptThankYouMessage"
  let communicationTemplates ← (v.getProp "communicationTemplates").bind (decodeListWith decodeTemplate)
  let tags ← (v.getProp "tags").bind (decodeListWith decodeTag)
  pure { name := name, logo := logo, address := address, website := website, phone := phone,
         email := email, whatsappNumber := whatsappNumber,
         receiptThankYouMessage := receiptThankYouMessage,
         communicationTemplates := communicationTemplates, tags := tags }

/-- Serialize an `OutboxItem`, flattening the discriminated union as the
source objects are laid out. -/
def encodeOutboxItem (o : OutboxItem) : JVal :=
  JVal.obj ([("id", JVal.str o.id), ("status", encodeOutboxStatus o.status),
             ("addedAt", JVal.str o.addedAt)]
    ++ optField "sentAt" (o.sentAt.map JVal.str)
    ++ optField "error" (o.error.map JVal.str)
    ++ (match o.info with
        | OutboxInfo.receipt donationId =>
          [("type", JVal.str "receipt"), ("donationId", JVal.str donationId)]
        | OutboxInfo.template donorId templateId =>
          [("type", JVal.str "template"), ("donorId", JVal.str donorId),
           ("templateId", JVal.str templateId)]))

/-- Parse an `OutboxItem` back, dispatching on the `type` discriminant. -/
def decodeOutboxItem (v : JVal) : Option OutboxItem := do
  let id ← getStr v "id"
  let status ← (v.getProp "status").bind decodeOutboxStatus
  let addedAt ← getStr v "addedAt"
  let sentAt ← decodeOptWith jStr? (v.getProp "sentAt")
  let error ← decodeOptWith jStr? (v.getProp "error")
  let ty ← getStr v "type"
  let info ←
    if ty = "receipt" then
      (getStr v "donationId").map OutboxInfo.receipt
    else if ty = "template" then do
      let donorId ← getStr v "donorId"
      let templateId ← getStr v "templateId"
      pure (OutboxInfo.template donorId templateId)
    else Option.none
  pure { id := id, status := status, addedAt := addedAt, sentAt := sentAt,
         error := error, info := info }

/-- Serialize a `QueuedCommunication`. -/
def encodeQueued (q : QueuedCommunication) : JVal :=
  JVal.obj ([("id", JVal.str q.id), ("donorId", JVal.str q.donorId),
             ("templateId", JVal.str q.templateId), ("channel", encodeEWChannel q.channel),
             ("status", encodeQStatus q.status), ("queuedAt", JVal.str q.queuedAt)]
    ++ optField "sentAt" (q.sentAt.map JVal.str)
    ++ optField "error" (q.error.map JVal.str))

/-- Parse a `QueuedCommunication` back. -/
def decodeQueued (v : JVal) : Option QueuedCommunication := do
  let id ← getStr v "id"
  let donorId ← getStr v "donorId"
  let templateId ← getStr v "templateId"
  let channel ← (v.getProp "channel").bind decodeEWChannel
  let status ← (v.getProp "status").bind decodeQStatus
  let queuedAt ← getStr v "queuedAt"
  let sentAt ← decodeOptWith jStr? (v.getProp "sentAt")
  let error ← decodeOptWith jStr? (v.getProp "error")
  pure { id := id, donorId := donorId, templateId := templateId, channel := channel,
         status := status, queuedAt := queuedAt, sentAt := sentAt, error := error }

/-- `stateToBackup` inside `backups.create`: the ten mutable collections
(everything except Backups) as one JSON object. -/
def encodeState (s : St) : JVal :=
  JVal.obj [("donors", JVal.arr (s.donors.map encodeDonor)),
            ("donations", JVal.arr (s.donations.map encodeDonation)),
            ("pledges", JVal.arr (s.pledges.map encodePledge)),
            ("recurringProfiles", JVal.arr (s.recurringProfiles.map encodeProfile)),
            ("users", JVal.arr (s.users.map encodeUser)),
            ("roles", JVal.arr (s.roles.map encodeRole)),
            ("settings", encodeSettings s.settings),
            ("outbox", JVal.arr (s.outbox.map encodeOutboxItem)),
            ("communicationQueue", JVal.arr (s.communicationQueue.map encodeQueued)),
            ("tags", JVal.arr (s.tags.map encodeTag))]

/-- The JS `data.key || dflt` read used throughout `restoreStateFromData`:
the property's value when present and truthy, otherwise the fallback. -/
def fieldOr (data : JVal) (key : String) (dflt : JVal) : JVal :=
  match data.getProp key with
  | some v => if jsTruthy (some v) then v else dflt
  | Option.none => dflt

/-- Typed read of a collection field.  The `.getD []` fallback is a model
artifact: the source assigns whatever raw value sits under the key; every
state a theorem inspects comes from the encoders' image, where decoding
succeeds. -/
def decListD (dec : JVal → Option α) (v : JVal) : List α :=
  (decodeListWith dec v).getD []

/-- `restoreStateFromData`: overwrites each tracked collection with
`data.field || []` (settings: `data.settings || mockSettings`); the Backups
collection is deliberately not restored. -/
def restoreStateFromData (data : JVal) (s : St) : St :=
  { donors := decListD decodeDonor (fieldOr data "donors" (JVal.arr []))
    donations := decListD decodeDonation (fieldOr data "donations" (JVal.arr []))
    pledges := decListD decodePledge (fieldOr data "pledges" (JVal.arr []))
    recurringProfiles := decListD decodeProfile (fieldOr data "recurringProfiles" (JVal.arr []))
    users := decListD decodeUser (fieldOr data "users" (JVal.arr []))
    roles := decListD decodeRole (fieldOr data "roles" (JVal.arr []))
    settings := (decodeSettings (fieldOr data "settings" (encodeSettings mockSettings))).getD mockSettings
    outbox := decListD decodeOutboxItem (fieldOr data "outbox" (JVal.arr []))
    communicationQueue := decListD decodeQueued (fieldOr data "communicationQueue" (JVal.arr []))
    tags := decListD decodeTag (fieldOr data "tags" (JVal.arr []))
    backups := s.backups }

/-- `actions.backups.create`: serializes the ten collections, records the
blob byte size, prepends the new backup. -/
def backupsCreate (now : Nat) (nowISO : String) (s : St) : Backup × St :=
  let data := encodeState s
  let newBackup : Backup :=
    { id := "backup-" ++ toString now, date := nowISO,
      size := (jRender data).utf8ByteSize, data := data }
  (newBackup, { s with backups := newBackup :: s.backups })

/-- `actions.backups.restore`: throws (`Except.error`) when the backup id is
unknown, otherwise parses the stored JSON and applies `restoreStateFromData`. -/
def backupsRestore (backupId : String) (s : St) : Except String St :=
  match s.backups.find? (fun b => b.id = backupId) with
  | Option.none => Except.error "Backup not found"
  | some backup => Except.ok (restoreStateFromData backup.data s)

/-- Result value of `restoreFromFile`. -/
structure FileRestoreResult where
  success : Bool
  error : Option String := Option.none
deriving DecidableEq, Repr

/-- `actions.backups.restoreFromFile`, with `JSON.parse` injected as its
outcome (`none` = the parse threw).  Property access on a parsed `null`
throws a TypeError inside the try block, so it lands in the same catch as a
parse failure.  The function itself never throws: every path returns a
result value. -/
def backupsRestoreFromFile (parsed : Option JVal) (s : St) : FileRestoreResult × St :=
  match parsed with
  | Option.none => ({ success := false, error := some "Failed to parse backup file." }, s)
  | some JVal.null => ({ success := false, error := some "Failed to parse backup file." }, s)
  | some v =>
    if jsTruthy (v.getProp "donors") && jsTruthy (v.getProp "donations") then
      ({ success := true }, restoreStateFromData v s)
    else
      ({ success := false, error := some "Invalid backup file format." }, s)

/-- `actions.backups.delete`. -/
def backupsDelete (backupId : String) (s : St) : St :=
  { s with backups := s.backups.filter (fun backup => backup.id ≠ backupId) }

/-! ## Operation alphabet: every action of the layer as one datatype, so that
claims can quantify over arbitrary mutation sequences. -/

/-- One invocation of a `useData` action, with its arguments and injected
clock/randomness inputs. -/
inductive Op where
  | donorsAdd (data : DonorInput) (now : Nat)
  | donorsUpdate (data : Donor)
  | donorsDelete (id : String)
  | donorsDeleteBulk (ids : List String)
  | donorsLogCommunication (donorId : String) (logData : CommLogInput) (now : Nat)
  | donorsLogCommunicationBulk (donorIds : List String) (logData : CommLogInput) (now : Nat)
  | donationsAdd (data : Donation) (now : Nat) (nowISO : String)
  | donationsDeleteBulk (ids : List String)
  | pledgesAdd (data : PledgeInput) (now : Nat)
  | pledgesUpdate (data : Pledge)
  | pledgesDeleteBulk (ids : List String)
  | pledgesUpdateStatusBulk (ids : List String) (status : PledgeStatus)
  | pledgesAddTask (pledgeId : String) (description : String) (now : Nat)
  | pledgesToggleTask (pledgeId taskId : String)
  | recurringAdd (data : RecurringInput) (now : Nat)
  | recurringUpdateStatus (id : String) (status : RecStatus)
  | recurringUpdateStatusBulk (ids : List String) (status : RecStatus)
  | usersAdd (data : UserInput) (now : Nat)
  | usersUpdate (data : User)
  | usersUpdateStatus (id : String) (status : UserStatus)
  | rolesAdd (data : RoleInput) (now : Nat)
  | rolesUpdate (data : Role)
  | rolesDelete (id : String)
  | settingsUpdate (data : OrganizationSettings)
  | outboxAdd (donationId : String) (now : Nat) (nowISO : String)
  | outboxAddBulk (donorIds : List String) (templateId : String) (now : Nat) (nowISO : String)
  | outboxUpdateStatus (outboxId : String) (status : OutboxStatus) (error : Option String) (nowISO : String)
  | outboxRetry (outboxId : String)
  | queueAdd (items : List QueueInput) (now : Nat) (rands : List String)
  | tagsAdd (data : TagInput) (now : Nat)
  | tagsUpdate (tag : Tag)
  | tagsDelete (id : String)
  | backupsCreate (now : Nat) (nowISO : String)
  | backupsRestore (backupId : String)
  | backupsRestoreFromFile (parsed : Option JVal)
  | backupsDelete (backupId : String)

/-- State transformer of one operation; returned values are projected away,
and a thrown `backups.restore` leaves the state as it was. -/
def applyOp : Op → St → St
  | Op.donorsAdd data now, s => (donorsAdd data now s).2
  | Op.donorsUpdate data, s => donorsUpdate data s
  | Op.donorsDelete id, s => donorsDelete id s
  | Op.donorsDeleteBulk ids, s => donorsDeleteBulk ids s
  | Op.donorsLogCommunication donorId logData now, s => donorsLogCommunication donorId logData now s
  | Op.donorsLogCommunicationBulk donorIds logData now, s => donorsLogCommunicationBulk donorIds logData now s
  | Op.donationsAdd data now nowISO, s => (donationsAdd data now nowISO s).2
  | Op.donationsDeleteBulk ids, s => donationsDeleteBulk ids s
  | Op.pledgesAdd data now, s => (pledgesAdd data now s).2
  | Op.pledgesUpdate data, s => pledgesUpdate data s
  | Op.pledgesDeleteBulk ids, s => pledgesDeleteBulk ids s
  | Op.pledgesUpdateStatusBulk ids status, s => pledgesUpdateStatusBulk ids status s
  | Op.pledgesAddTask pledgeId description now, s => pledgesAddTask pledgeId description now s
  | Op.pledgesToggleTask pledgeId taskId, s => pledgesToggleTask pledgeId taskId s
  | Op.recurringAdd data now, s => (recurringAdd data now s).2
  | Op.recurringUpdateStatus id status, s => recurringUpdateStatus id status s
  | Op.recurringUpdateStatusBulk ids status, s => recurringUpdateStatusBulk ids status s
  | Op.usersAdd data now, s => (usersAdd data now s).2
  | Op.usersUpdate data, s => usersUpdate data s
  | Op.usersUpdateStatus id status, s => usersUpdateStatus id status s
  | Op.rolesAdd data now, s => (rolesAdd data now s).2
  | Op.rolesUpdate data, s => rolesUpdate data s
  | Op.rolesDelete id, s => (rolesDelete id s).2
  | Op.settingsUpdate data, s => settingsUpdate data s
  | Op.outboxAdd donationId now nowISO, s => outboxAdd donationId now nowISO s
  | Op.outboxAddBulk donorIds templateId now nowISO, s => outboxAddBulk donorIds templateId now nowISO s
  | Op.outboxUpdateStatus outboxId status error nowISO, s => outboxUpdateStatus outboxId status error nowISO s
  | Op.outboxRetry outboxId, s => outboxRetry outboxId s
  | Op.queueAdd items now rands, s => queueAdd items now rands s
  | Op.tagsAdd data now, s => (tagsAdd data now s).2
  | Op.tagsUpdate tag, s => tagsUpdate tag s
  | Op.tagsDelete id, s => tagsDelete id s
  | Op.backupsCreate now nowISO, s => (backupsCreate now nowISO s).2
  | Op.backupsRestore backupId, s =>
    match backupsRestore backupId s with
    | Except.ok s2 => s2
    | Except.error _ => s
  | Op.backupsRestoreFromFile parsed, s => (backupsRestoreFromFile parsed s).2
  | Op.backupsDelete backupId, s => backupsDelete backupId s

/-- Apply a sequence of operations left to right. -/
def applyOps (ops : List Op) (s : St) : St :=
  ops.foldl (fun acc op => applyOp op acc) s

/-- BackupLayer membership: the four `actions.backups` operations.  All other
operations are the MutationLayer's per-entity operations. -/
def Op.isBackupOp : Op → Bool
  | Op.backupsCreate _ _ => true
  | Op.backupsRestore _ => true
  | Op.backupsRestoreFromFile _ => true
  | Op.backupsDelete _ => true
  | _ => false

/-! ## Round-trip lemmas: decoding an encoded value restores it exactly.
These back the backup create/restore claims: `JSON.parse` of a
`JSON.stringify` snapshot reproduces the snapshot. -/

/-- Elementwise decode of an encoded list succeeds. -/
theorem decodeAll_map_encode {α : Type} (dec : JVal → Option α) (enc : α → JVal)
    (h : ∀ x, dec (enc x) = some x) (xs : List α) :
    decodeAll dec (xs.map enc) = some xs := by
  induction xs with
  | nil => rfl
  | cons x xs ih => simp [decodeAll, h, ih]

/-- Decode of an encoded array succeeds. -/
theorem decodeListWith_map_encode {α : Type} (dec : JVal → Option α) (enc : α → JVal)
    (h : ∀ x, dec (enc x) = some x) (xs : List α) :
    decodeListWith dec (JVal.arr (xs.map enc)) = some xs := by
  simp [decodeListWith, decodeAll_map_encode dec enc h]

/-- Round trip for `Method`. -/
theorem decodeMethod_encode (x : Method) : decodeMethod (encodeMethod x) = some x := by
  cases x <;> rfl

/-- Round trip for `Purpose`. -/
theorem decodePurpose_encode (x : Purpose) : decodePurpose (encodePurpose x) = some x := by
  cases x <;> rfl

/-- Round trip for `Recurring`. -/
theorem decodeRecurring_encode (x : Recurring) : decodeRecurring (encodeRecurring x) = some x := by
  cases x <;> rfl

/-- Round trip for `PledgeStatus`. -/
theorem decodePledgeStatus_encode (x : PledgeStatus) :
    decodePledgeStatus (encodePledgeStatus x) = some x := by
  cases x <;> rfl

/-- Round trip for `RecStatus`. -/
theorem decodeRecStatus_encode (x : RecStatus) :
    decodeRecStatus (encodeRecStatus x) = some x := by
  cases x <;> rfl

/-- Round trip for `UserStatus`. -/
theorem decodeUserStatus_encode (x : UserStatus) :
    decodeUserStatus (encodeUserStatus x) = some x := by
  cases x <;> rfl

/-- Round trip for `OutboxStatus`. -/
theorem decodeOutboxStatus_encode (x : OutboxStatus) :
    decodeOutboxStatus (encodeOutboxStatus x) = some x := by
  cases x <;> rfl

/-- Round trip for `QStatus`. -/
theorem decodeQStatus_encode (x : QStatus) : decodeQStatus (encodeQStatus x) = some x := by
  cases x <;> rfl

/-- Round trip for `LogChannel`. -/
theorem decodeLogChannel_encode (x : LogChannel) :
    decodeLogChannel (encodeLogChannel x) = some x := by
  cases x <;> rfl

/-- Round trip for `EWChannel`. -/
theorem decodeEWChannel_encode (x : EWChannel) :
    decodeEWChannel (encodeEWChannel x) = some x := by
  cases x <;> rfl

/-- Round trip for `TplType`. -/
theorem decodeTplType_encode (x : TplType) : decodeTplType (encodeTplType x) = some x := by
  cases x <;> rfl

/-- Round trip for `Permission`. -/
theorem decodePermission_encode (x : Permission) :
    decodePermission (encodePermission x) = some x := by
  cases x <;> rfl

/-- Round trip for `jStr?`. -/
theorem jStr_encode (s : String) : jStr? (JVal.str s) = some s := rfl

/-- Round trip for a `DonationHistory` entry. -/
theorem decodeHistoryEntry_encode (h : DonationHistory) :
    decodeHistoryEntry (encodeHistoryEntry h) = some h := by
  simp [decodeHistoryEntry, encodeHistoryEntry, getStr, getInt, JVal.getProp, jLookup,
    jStr?, jInt?]

/-- Round trip for a `CommunicationLog` entry. -/
theorem decodeCommLog_encode (l : CommunicationLog) :
    decodeCommLog (encodeCommLog l) = some l := by
  simp [decodeCommLog, encodeCommLog, getStr, JVal.getProp, jLookup, jStr?,
    decodeLogChannel_encode]

/-- Round trip for a `Contact`. -/
theorem decodeContact_encode (c : Contact) : decodeContact (encodeContact c) = some c := by
  simp [decodeContact, encodeContact, getStr, getBool, JVal.getProp, jLookup, jStr?, jBool?]

/-- Round trip for a `Tag`. -/
theorem decodeTag_encode (t : Tag) : decodeTag (encodeTag t) = some t := by
  simp [decodeTag, encodeTag, getStr, JVal.getProp, jLookup, jStr?]

/-- Round trip for a `Donor`. -/
theorem decodeDonor_encode (d : Donor) : decodeDonor (encodeDonor d) = some d := by
  cases d with
  | mk id name email phone address joinDate donationHistory tagIds notes communicationLogs contacts =>
    cases tagIds <;> cases notes <;> cases communicationLogs <;> cases contacts <;>
      simp [decodeDonor, encodeDonor, getStr, JVal.getProp, jLookup, jStr?, decodeOptWith,
        optField, decodeListWith_map_encode _ _ decodeHistoryEntry_encode,
        decodeListWith_map_encode _ _ decodeCommLog_encode,
        decodeListWith_map_encode _ _ decodeContact_encode,
        decodeListWith_map_encode _ _ jStr_encode]

/-- Round trip for a `Donation`. -/
theorem decodeDonation_encode (d : Donation) : decodeDonation (encodeDonation d) = some d := by
  cases d with
  | mk id donorId amount date method purpose customPurpose recurring =>
    cases customPurpose <;>
      simp [decodeDonation, encodeDonation, getStr, getInt, JVal.getProp, jLookup, jStr?,
        jInt?, decodeOptWith, optField, decodeMethod_encode, decodePurpose_encode,
        decodeRecurring_encode]

/-- Round trip for a `PledgeTask`. -/
theorem decodePledgeTask_encode (t : PledgeTask) :
    decodePledgeTask (encodePledgeTask t) = some t := by
  simp [decodePledgeTask, encodePledgeTask, getStr, getBool, JVal.getProp, jLookup, jStr?,
    jBool?]

/-- Round trip for a `Pledge`. -/
theorem decodePledge_encode (p : Pledge) : decodePledge (encodePledge p) = some p := by
  cases p with
  | mk id donorId amount dueDate status tasks =>
    cases tasks <;>
      simp [decodePledge, encodePledge, getStr, getInt, JVal.getProp, jLookup, jStr?, jInt?,
        decodeOptWith, optField, decodePledgeStatus_encode,
        decodeListWith_map_encode _ _ decodePledgeTask_encode]

/-- Round trip for a `RecurringProfile`. -/
theorem decodeProfile_encode (r : RecurringProfile) :
    decodeProfile (encodeProfile r) = some r := by
  cases r with
  | mk id donorId amount frequency startDate nextDueDate status purpose customPurpose method =>
    cases customPurpose <;>
      simp [decodeProfile, encodeProfile, getStr, getInt, JVal.getProp, jLookup, jStr?, jInt?,
        decodeOptWith, optField, decodeRecurring_encode, decodeRecStatus_encode,
        decodePurpose_encode, decodeMethod_encode]

/-- Round trip for a `Role`. -/
theorem decodeRole_encode (r : Role) : decodeRole (encodeRole r) = some r := by
  cases r with
  | mk id name permissions isSystemRole =>
    cases isSystemRole <;>
      simp [decodeRole, encodeRole, getStr, JVal.getProp, jLookup, jStr?, jBool?,
        decodeOptWith, optField, decodeListWith_map_encode _ _ decodePermission_encode]

/-- Round trip for a `User`. -/
theorem decodeUser_encode (u : User) : decodeUser (encodeUser u) = some u := by
  cases u with
  | mk id name email roleId status avatar lastLogin =>
    cases avatar <;>
      simp [decodeUser, encodeUser, getStr, JVal.getProp, jLookup, jStr?, decodeOptWith,
        optField, decodeUserStatus_encode]

/-- Round trip for a `CommunicationTemplate`. -/
theorem decodeTemplate_encode (t : CommunicationTemplate) :
    decodeTemplate (encodeTemplate t) = some t := by
  cases t with
  | mk id name ttype channel subject body =>
    cases subject <;>
      simp [decodeTemplate, encodeTemplate, getStr, JVal.getProp, jLookup, jStr?,
        decodeOptWith, optField, decodeTplType_encode, decodeEWChannel_encode]

/-- Round trip for `OrganizationSettings`. -/
theorem decodeSettings_encode (s : OrganizationSettings) :
    decodeSettings (encodeSettings s) = some s := by
  simp [decodeSettings, encodeSettings, getStr, JVal.getProp, jLookup, jStr?,
    decodeListWith_map_encode _ _ decodeTemplate_encode,
    decodeListWith_map_encode _ _ decodeTag_encode]

/-- Round trip for an `OutboxItem`. -/
theorem decodeOutboxItem_encode (o : OutboxItem) :
    decodeOutboxItem (encodeOutboxItem o) = some o := by
  cases o with
  | mk id status addedAt sentAt error info =>
    cases sentAt <;> cases error <;> cases info <;>
      simp [decodeOutboxItem, encodeOutboxItem, getStr, JVal.getProp, jLookup, jStr?,
        decodeOptWith, optField, decodeOutboxStatus_encode]

/-- Round trip for a `QueuedCommunication`. -/
theorem decodeQueued_encode (q : QueuedCommunication) :
    decodeQueued (encodeQueued q) = some q := by
  cases q with
  | mk id donorId templateId channel status queuedAt sentAt error =>
    cases sentAt <;> cases error <;>
      simp [decodeQueued, encodeQueued, getStr, JVal.getProp, jLookup, jStr?, decodeOptWith,
        optField, decodeEWChannel_encode, decodeQStatus_encode]

/-- Restoring from an encoded snapshot reproduces the snapshot's ten
collections exactly and leaves the Backups collection of the receiving
state untouched. -/
theorem restoreStateFromData_encodeState (snap s : St) :
    restoreStateFromData (encodeState snap) s =
      { snap with backups := s.backups } := by
  have h1 : fieldOr (encodeState snap) "donors" (JVal.arr [])
      = JVal.arr (snap.donors.map encodeDonor) := rfl
  have h2 : fieldOr (encodeState snap) "donations" (JVal.arr [])
      = JVal.arr (snap.donations.map encodeDonation) := rfl
  have h3 : fieldOr (encodeState snap) "pledges" (JVal.arr [])
      = JVal.arr (snap.pledges.map encodePledge) := rfl
  have h4 : fieldOr (encodeState snap) "recurringProfiles" (JVal.arr [])
      = JVal.arr (snap.recurringProfiles.map encodeProfile) := rfl
  have h5 : fieldOr (encodeState snap) "users" (JVal.arr [])
      = JVal.arr (snap.users.map encodeUser) := rfl
  have h6 : fieldOr (encodeState snap) "roles" (JVal.arr [])
      = JVal.arr (snap.roles.map encodeRole) := rfl
  have h7 : fieldOr (encodeState snap) "settings" (encodeSettings mockSettings)
      = encodeSettings snap.settings := rfl
  have h8 : fieldOr (encodeState snap) "outbox" (JVal.arr [])
      = JVal.arr (snap.outbox.map encodeOutboxItem) := rfl
  have h9 : fieldOr (encodeState snap) "communicationQueue" (JVal.arr [])
      = JVal.arr (snap.communicationQueue.map encodeQueued) := rfl
  have h10 : fieldOr (encodeState snap) "tags" (JVal.arr [])
      = JVal.arr (snap.tags.map encodeTag) := rfl
  simp only [restoreStateFromData, h1, h2, h3, h4, h5, h6, h7, h8, h9, h10]
  simp [decListD,
    decodeListWith_map_encode _ _ decodeDonor_encode,
    decodeListWith_map_encode _ _ decodeDonation_encode,
    decodeListWith_map_encode _ _ decodePledge_encode,
    decodeListWith_map_encode _ _ decodeProfile_encode,
    decodeListWith_map_encode _ _ decodeUser_encode,
    decodeListWith_map_encode _ _ decodeRole_encode,
    decodeSettings_encode,
    decodeListWith_map_encode _ _ decodeOutboxItem_encode,
    decodeListWith_map_encode _ _ decodeQueued_encode,
    decodeListWith_map_encode _ _ decodeTag_encode]

/-! ## Helper lemmas and reference data for the claims. -/

/-- Mapping a function that fixes every element is the identity. -/
theorem map_eq_self_of {α : Type} (l : List α) (f : α → α) (h : ∀ x ∈ l, f x = x) :
    l.map f = l := by
  induction l with
  | nil => rfl
  | cons x xs ih =>
    simp only [List.map_cons, h x (List.mem_cons_self x xs)]
    rw [ih (fun y hy => h y (List.mem_cons_of_mem x hy))]

/-- `find?` is unaffected by filtering out elements the predicate rejects. -/
theorem find?_filter_of_imp {α : Type} (l : List α) (p q : α → Bool)
    (h : ∀ x, p x = true → q x = true) :
    (l.filter q).find? p = l.find? p := by
  induction l with
  | nil => rfl
  | cons x xs ih =>
    by_cases hq : q x = true
    · by_cases hp : p x = true
      · simp [List.filter_cons, hq, List.find?, hp]
      · simp [List.filter_cons, hq, List.find?, hp, ih]
    · have hp : p x = false := by
        cases hpx : p x with
        | false => rfl
        | true => exact absurd (h x hpx) hq
      simp [List.filter_cons, hq, List.find?, hp, ih]

/-- `mockDonors[0]` from `data/mockData.ts`. -/
def mockDonor1 : Donor :=
  { id := "donor-1", name := "Alice Johnson", email := "alice.j@example.com",
    phone := "123-456-7890", address := "123 Maple St, Springfield",
    joinDate := "2023-01-15", donationHistory := [],
    tagIds := some ["tag-1", "tag-2"],
    notes := some "Interested in child sponsorship programs." }

/-- `mockDonors[1]` from `data/mockData.ts`. -/
def mockDonor2 : Donor :=
  { id := "donor-2", name := "Bob Williams", email := "bob.w@example.com",
    phone := "234-567-8901", address := "456 Oak Ave, Metropolis",
    joinDate := "2023-02-20", donationHistory := [] }

/-- `mockDonations[0]` from `data/mockData.ts`. -/
def mockDonation1 : Donation :=
  { id := "donation-1", donorId := "donor-1", amount := 100, date := "2023-03-10",
    method := Method.online, purpose := Purpose.sadaqa, recurring := Recurring.none }

/-- `mockDonations[1]` from `data/mockData.ts`. -/
def mockDonation2 : Donation :=
  { id := "donation-2", donorId := "donor-2", amount := 50, date := "2023-04-15",
    method := Method.cash, purpose := Purpose.zakat, recurring := Recurring.none }

/-- A pledge shaped like `mockPledges[0]` (its due date fixed, where the mock
uses the current clock). -/
def mockPledge1 : Pledge :=
  { id := "pledge-1", donorId := "donor-1", amount := 500, dueDate := "2024-06-01",
    status := PledgeStatus.pending,
    tasks := some [{ id := "t1", description := "Follow up call", completed := false }] }

/-- A recurring profile shaped like `mockRecurringProfiles[0]` (next due date
fixed, where the mock uses the current clock). -/
def mockProfile1 : RecurringProfile :=
  { id := "rec-1", donorId := "donor-1", amount := 200, frequency := Recurring.monthly,
    startDate := "2023-05-20", nextDueDate := "2023-06-20", status := RecStatus.active,
    purpose := Purpose.sponsorChild, method := Method.online }

/-- `mockRoles[0]` from `data/mockData.ts` (the system role). -/
def mockRole1 : Role :=
  { id := "role-1", name := "Administrator",
    permissions := [Permission.donorsView, Permission.donorsCreate, Permission.donorsEdit,
      Permission.donorsDelete, Permission.receiptsView, Permission.receiptsCreate,
      Permission.receiptsDelete, Permission.reportsView, Permission.settingsManage,
      Permission.usersManage],
    isSystemRole := some true }

/-- `mockRoles[1]` from `data/mockData.ts`. -/
def mockRole2 : Role :=
  { id := "role-2", name := "Staff",
    permissions := [Permission.donorsView, Permission.donorsCreate, Permission.donorsEdit,
      Permission.receiptsView, Permission.receiptsCreate] }

/-- `mockUsers[0]` from `data/mockData.ts` (its login stamp fixed, where the
mock uses the current clock). -/
def mockUser1 : User :=
  { id := "user-1", name := "Admin User", email := "admin@alkahaf.org", roleId := "role-1",
    status := UserStatus.active, avatar := some "https://i.pravatar.cc/150?u=admin",
    lastLogin := "2024-01-01T00:00:00.000Z" }

/-- The store as `loadData` initializes it (empty collections replaced by the
mock fixtures; outbox, queue and backups start empty; the global tags list is
mirrored into settings). -/
def baseSt : St :=
  { donors := [], donations := [], pledges := [], recurringProfiles := [], users := [],
    roles := [], settings := mockSettings, outbox := [], communicationQueue := [],
    tags := mockTags, backups := [] }

/-- Referential integrity across the store: every `donorId`, `donationId`,
`tagId` and `roleId` held by any collection points at an existing entity. -/
def refsValid (s : St) : Bool :=
  s.donations.all (fun dn => s.donors.any (fun d => d.id = dn.donorId))
  && s.pledges.all (fun p => s.donors.any (fun d => d.id = p.donorId))
  && s.recurringProfiles.all (fun r => s.donors.any (fun d => d.id = r.donorId))
  && s.communicationQueue.all (fun q => s.donors.any (fun d => d.id = q.donorId))
  && s.outbox.all (fun item =>
      match item.info with
      | OutboxInfo.receipt donationId => s.donations.any (fun dn => dn.id = donationId)
      | OutboxInfo.template donorId _ => s.donors.any (fun d => d.id = donorId))
  && s.donors.all (fun d => (d.tagIds.getD []).all (fun t => s.tags.any (fun tg => tg.id = t)))
  && s.users.all (fun u => s.roles.any (fun r => r.id = u.roleId))

/-- The transition relation the spec advertises for outbox statuses. -/
def advertisedTransition (a b : OutboxStatus) : Bool :=
  (a = OutboxStatus.ready && b = OutboxStatus.sent)
  || (a = OutboxStatus.ready && b = OutboxStatus.failed)
  || (a = OutboxStatus.failed && b = OutboxStatus.ready)

/-- Key presence in a parsed JSON document. -/
def hasKey (v : JVal) (key : String) : Bool :=
  match v with
  | JVal.obj kvs => (jLookup kvs key).isSome
  | _ => false

/-- Which operations write the tags collection or the settings record
(`tags.add/update/delete` and `settings.update`). -/
def Op.touchesTags : Op → Bool
  | Op.tagsAdd _ _ => true
  | Op.tagsUpdate _ => true
  | Op.tagsDelete _ => true
  | Op.settingsUpdate _ => true
  | _ => false

/-- One operation keeps a backup with the given id findable: it is not a
delete of that id nor a create whose generated id collides with it. -/
def opPreservesBackup (bid : String) : Op → Bool
  | Op.backupsDelete del => del != bid
  | Op.backupsCreate now _ => ("backup-" ++ toString now) != bid
  | _ => true

/-- A whole sequence keeps the backup findable. -/
def opsPreserveBackup (bid : String) (ops : List Op) : Bool :=
  ops.all (opPreservesBackup bid)

/-- No MutationLayer (non-backup) operation writes the Backups collection. -/
theorem applyOp_backups_eq (op : Op) (s : St) (h : op.isBackupOp = false) :
    (applyOp op s).backups = s.backups := by
  cases op
  case donationsAdd data now nowISO =>
    simp only [applyOp, donationsAdd, outboxAdd, recurringAdd]
    split <;> rfl
  case rolesDelete id =>
    simp only [applyOp, rolesDelete]
    split
    · rfl
    · split <;> rfl
  case backupsCreate now nowISO => exact absurd h (by simp [Op.isBackupOp])
  case backupsRestore backupId => exact absurd h (by simp [Op.isBackupOp])
  case backupsRestoreFromFile parsed => exact absurd h (by simp [Op.isBackupOp])
  case backupsDelete backupId => exact absurd h (by simp [Op.isBackupOp])
  all_goals rfl

/-- `backups.restore` never writes the Backups collection. -/
theorem applyOp_restore_backups_eq (backupId : String) (s : St) :
    (applyOp (Op.backupsRestore backupId) s).backups = s.backups := by
  simp only [applyOp, backupsRestore]
  cases s.backups.find? (fun x => x.id = backupId) <;> rfl

/-- `backups.restoreFromFile` never writes the Backups collection. -/
theorem applyOp_restoreFromFile_backups_eq (parsed : Option JVal) (s : St) :
    (applyOp (Op.backupsRestoreFromFile parsed) s).backups = s.backups := by
  cases parsed with
  | none => rfl
  | some v =>
    cases v <;> simp only [applyOp, backupsRestoreFromFile] <;> first | rfl | (split <;> rfl)

/-- One preserved operation keeps a findable backup findable, unchanged. -/
theorem find?_backups_applyOp (op : Op) (s : St) (bid : String) (b : Backup)
    (hop : opPreservesBackup bid op = true)
    (hfind : s.backups.find? (fun x => x.id = bid) = some b) :
    (applyOp op s).backups.find? (fun x => x.id = bid) = some b := by
  cases op
  case backupsCreate now nowISO =>
    have hne : ¬ ("backup-" ++ toString now) = bid := by
      simpa [opPreservesBackup] using hop
    simp only [applyOp, backupsCreate]
    simp [List.find?, hne, hfind]
  case backupsDelete del =>
    have hne : ¬ del = bid := by simpa [opPreservesBackup] using hop
    have hb : (applyOp (Op.backupsDelete del) s).backups
        = s.backups.filter (fun x => x.id ≠ del) := rfl
    rw [hb, find?_filter_of_imp _ _ _ ?_, hfind]
    intro x hx
    have hx2 : x.id = bid := by simpa using hx
    simp only [hx2, ne_eq, decide_eq_true_eq]
    exact fun hbd => hne hbd.symm
  case backupsRestore backupId =>
    rw [applyOp_restore_backups_eq]; exact hfind
  case backupsRestoreFromFile parsed =>
    rw [applyOp_restoreFromFile_backups_eq]; exact hfind
  case donationsAdd data now nowISO =>
    have hb : (applyOp (Op.donationsAdd data now nowISO) s).backups = s.backups := by
      simp only [applyOp, donationsAdd, outboxAdd, recurringAdd]
      split <;> rfl
    rw [hb]; exact hfind
  case rolesDelete id =>
    have hb : (applyOp (Op.rolesDelete id) s).backups = s.backups := by
      simp only [applyOp, rolesDelete]
      split
      · rfl
      · split <;> rfl
    rw [hb]; exact hfind
  all_goals exact hfind

/-- A preserved sequence keeps a findable backup findable, unchanged. -/
theorem find?_backups_applyOps (ops : List Op) (s : St) (bid : String) (b : Backup)
    (hops : opsPreserveBackup bid ops = true)
    (hfind : s.backups.find? (fun x => x.id = bid) = some b) :
    (applyOps ops s).backups.find? (fun x => x.id = bid) = some b := by
  induction ops generalizing s with
  | nil => exact hfind
  | cons op rest ih =>
    simp only [opsPreserveBackup, List.all_cons, Bool.and_eq_true] at hops
    exact ih (applyOp op s) hops.2 (find?_backups_applyOp op s bid b hops.1 hfind)

/-! ## Claim C4: role deletion fails closed. -/

/-- Claim C4: `roles.delete(id)` returns an error result (never throws) and
leaves the whole store unchanged whenever the role with that id has
`isSystemRole` set or at least one user's `roleId` equals `id`; otherwise it
removes the role from the Roles collection and nothing else. -/
theorem rolesDelete_spec (s : St) (id : String) :
    (((∃ r, s.roles.find? (fun r2 => r2.id = id) = some r ∧ r.isSystemRole = some true)
        ∨ (∃ u ∈ s.users, u.roleId = id)) →
      (∃ e : String, (rolesDelete id s).1 = some e) ∧ (rolesDelete id s).2 = s)
    ∧ ((∀ r, s.roles.find? (fun r2 => r2.id = id) = some r → r.isSystemRole ≠ some true) →
       (∀ u ∈ s.users, u.roleId ≠ id) →
      (rolesDelete id s).1 = Option.none
      ∧ (rolesDelete id s).2 = { s with roles := s.roles.filter (fun role => role.id ≠ id) }) := by
  constructor
  · rintro (⟨r, hr, hsys⟩ | ⟨u, hu, hru⟩)
    · have hc1 : ((s.roles.find? (fun r2 => r2.id = id)).map
          (fun r2 => r2.isSystemRole.getD false)).getD false = true := by
        rw [hr]
        simp [hsys]
      simp [rolesDelete, hc1]
    · by_cases hc1 : ((s.roles.find? (fun r2 => r2.id = id)).map
          (fun r2 => r2.isSystemRole.getD false)).getD false = true
      · simp [rolesDelete, hc1]
      · have hc2 : s.users.any (fun u2 => u2.roleId = id) = true := by
          simp only [List.any_eq_true, decide_eq_true_eq]
          exact ⟨u, hu, hru⟩
        simp [rolesDelete, hc1, hc2]
  · intro hsys huser
    have hc1 : ((s.roles.find? (fun r2 => r2.id = id)).map
        (fun r2 => r2.isSystemRole.getD false)).getD false = false := by
      cases hfind : s.roles.find? (fun r2 => r2.id = id) with
      | none => rfl
      | some r =>
        have := hsys r hfind
        cases hrole : r.isSystemRole with
        | none => simp [hrole]
        | some b =>
          cases b with
          | false => simp [hrole]
          | true => exact absurd hrole this
    have hc2 : s.users.any (fun u2 => u2.roleId = id) = false := by
      rw [Bool.eq_false_iff]
      intro hany
      simp only [List.any_eq_true, decide_eq_true_eq] at hany
      obtain ⟨u, hu, hru⟩ := hany
      exact huser u hu hru
    simp [rolesDelete, hc1, hc2]

/-- Witness for C4: the system role `role-1` (Administrator) cannot be
deleted, while the unassigned role `role-2` is removed. -/
theorem rolesDelete_spec_witness :
    ((∃ e : String, (rolesDelete "role-1"
        { baseSt with roles := [mockRole1, mockRole2], users := [mockUser1] }).1 = some e)
      ∧ (rolesDelete "role-1"
        { baseSt with roles := [mockRole1, mockRole2], users := [mockUser1] }).2
        = { baseSt with roles := [mockRole1, mockRole2], users := [mockUser1] })
    ∧ ((rolesDelete "role-2"
        { baseSt with roles := [mockRole1, mockRole2], users := [mockUser1] }).1 = Option.none
      ∧ (rolesDelete "role-2"
        { baseSt with roles := [mockRole1, mockRole2], users := [mockUser1] }).2
        = { baseSt with roles := [mockRole1], users := [mockUser1] }) := by
  constructor
  · exact (rolesDelete_spec { baseSt with roles := [mockRole1, mockRole2], users := [mockUser1] }
      "role-1").1 (Or.inl ⟨mockRole1, by decide, by decide⟩)
  · have h := (rolesDelete_spec { baseSt with roles := [mockRole1, mockRole2], users := [mockUser1] }
      "role-2").2
      (by
        intro r hr
        have h2 : (some mockRole2 : Option Role) = some r := Eq.trans (by rfl) hr
        cases Option.some.inj h2
        decide)
      (by
        intro u hu
        cases List.mem_singleton.1 hu
        decide)
    exact ⟨h.1, h.2.trans (by rfl)⟩

/-! ## Claim C5: tag deletion cascades to settings and every donor. -/

/-- Claim C5: `tags.delete(id)` removes the tag from the Tags collection,
from Settings' tag list, and removes `id` from every donor's `tagIds`; every
donor is rewritten (none escapes the cascade). -/
theorem tagsDelete_spec (s : St) (id : String) :
    (tagsDelete id s).tags = s.tags.filter (fun t => t.id ≠ id)
    ∧ (tagsDelete id s).settings.tags = s.settings.tags.filter (fun t => t.id ≠ id)
    ∧ (∀ t ∈ (tagsDelete id s).tags, t.id ≠ id)
    ∧ (∀ t ∈ (tagsDelete id s).settings.tags, t.id ≠ id)
    ∧ (∀ d ∈ (tagsDelete id s).donors, ¬ id ∈ d.tagIds.getD [])
    ∧ (∀ d ∈ s.donors,
        { d with tagIds := some ((d.tagIds.getD []).filter (fun tagId => tagId ≠ id)) }
          ∈ (tagsDelete id s).donors) := by
  refine ⟨rfl, rfl, ?_, ?_, ?_, ?_⟩
  · intro t ht
    have := List.of_mem_filter ht
    simpa using this
  · intro t ht
    have := List.of_mem_filter ht
    simpa using this
  · intro d hd
    simp only [tagsDelete, List.mem_map] at hd
    obtain ⟨d0, _, hd0⟩ := hd
    rw [← hd0]
    simp only [Option.getD_some]
    intro hmem
    have := List.of_mem_filter hmem
    simp at this
  · intro d hd
    exact List.mem_map_of_mem _ hd

/-- Witness for C5: deleting `tag-1` rewrites Alice (who carried
`tag-1, tag-2`) to carry only `tag-2`. -/
theorem tagsDelete_spec_witness :
    ({ mockDonor1 with tagIds := some ["tag-2"] } : Donor)
        ∈ (tagsDelete "tag-1" { baseSt with donors := [mockDonor1] }).donors
    ∧ ¬ "tag-1" ∈ (({ mockDonor1 with tagIds := some ["tag-2"] } : Donor)).tagIds.getD [] := by
  have h := tagsDelete_spec { baseSt with donors := [mockDonor1] } "tag-1"
  have hmem : ({ mockDonor1 with tagIds := some ["tag-2"] } : Donor)
      ∈ (tagsDelete "tag-1" { baseSt with donors := [mockDonor1] }).donors := by
    have h2 := h.2.2.2.2.2 mockDonor1 (by decide)
    exact h2
  exact ⟨hmem, h.2.2.2.2.1 _ hmem⟩

/-! ## Claim C6: restoreFromFile with a missing donors/donations key. -/

/-- Claim C6: for any JSON object lacking a `donations` key (or lacking a
`donors` key), `restoreFromFile` returns `{success: false}` with an error
message and leaves the state exactly unchanged. -/
theorem restoreFromFile_missing_key_spec (s : St) (kvs : List (String × JVal))
    (h : jLookup kvs "donors" = Option.none ∨ jLookup kvs "donations" = Option.none) :
    backupsRestoreFromFile (some (JVal.obj kvs)) s
      = ({ success := false, error := some "Invalid backup file format." }, s) := by
  rcases h with h | h
  · simp [backupsRestoreFromFile, JVal.getProp, h, jsTruthy]
  · simp [backupsRestoreFromFile, JVal.getProp, h, jsTruthy]

/-- Witness for C6: the empty JSON object is rejected and the state kept. -/
theorem restoreFromFile_missing_key_witness :
    backupsRestoreFromFile (some (JVal.obj [])) baseSt
      = ({ success := false, error := some "Invalid backup file format." }, baseSt) :=
  restoreFromFile_missing_key_spec baseSt [] (Or.inl rfl)

/-! ## Claim C7: restoreFromFile result characterization. -/

/-- Counterexample to C7 as stated: a JSON object that contains both the
`donors` and `donations` keys (with `null` values) is still rejected — key
presence alone does not yield `{success: true}`; the code tests JS
truthiness of the values. -/
theorem restoreFromFile_keys_counterexample :
    hasKey (JVal.obj [("donors", JVal.null), ("donations", JVal.null)]) "donors" = true
    ∧ hasKey (JVal.obj [("donors", JVal.null), ("donations", JVal.null)]) "donations" = true
    ∧ (backupsRestoreFromFile
        (some (JVal.obj [("donors", JVal.null), ("donations", JVal.null)])) baseSt).1
        = { success := false, error := some "Invalid backup file format." } :=
  ⟨rfl, rfl, rfl⟩

/-- Claim C7 (amended): `restoreFromFile` never throws — it is total on every
parse outcome and returns `{success: true}` exactly when the input parsed
and both the `donors` and `donations` properties are JS-truthy; every
failure carries an error message and leaves the state unchanged. -/
theorem restoreFromFile_result_spec (parsed : Option JVal) (s : St) :
    ((backupsRestoreFromFile parsed s).1.success = true
      ↔ ∃ v, parsed = some v ∧ jsTruthy (v.getProp "donors") = true
          ∧ jsTruthy (v.getProp "donations") = true)
    ∧ ((backupsRestoreFromFile parsed s).1.success = false →
        (∃ e, (backupsRestoreFromFile parsed s).1.error = some e)
        ∧ (backupsRestoreFromFile parsed s).2 = s) := by
  cases parsed with
  | none =>
    refine ⟨?_, fun _ => ⟨⟨_, rfl⟩, rfl⟩⟩
    simp [backupsRestoreFromFile]
  | some v =>
    cases v with
    | null =>
      refine ⟨?_, fun _ => ⟨⟨_, rfl⟩, rfl⟩⟩
      simp only [backupsRestoreFromFile]
      constructor
      · intro h
        exact absurd h (by decide)
      · rintro ⟨v2, hv2, h1, h2⟩
        cases Option.some.inj hv2
        simp [JVal.getProp, jsTruthy] at h1
    | bool b =>
      refine ⟨?_, fun _ => ⟨⟨_, rfl⟩, rfl⟩⟩
      constructor
      · intro h
        exact absurd h (by simp [backupsRestoreFromFile, JVal.getProp, jsTruthy])
      · rintro ⟨v2, hv2, h1, h2⟩
        cases Option.some.inj hv2
        simp [JVal.getProp, jsTruthy] at h1
    | num n =>
      refine ⟨?_, fun _ => ⟨⟨_, rfl⟩, rfl⟩⟩
      constructor
      · intro h
        exact absurd h (by simp [backupsRestoreFromFile, JVal.getProp, jsTruthy])
      · rintro ⟨v2, hv2, h1, h2⟩
        cases Option.some.inj hv2
        simp [JVal.getProp, jsTruthy] at h1
    | str str2 =>
      refine ⟨?_, fun _ => ⟨⟨_, rfl⟩, rfl⟩⟩
      constructor
      · intro h
        exact absurd h (by simp [backupsRestoreFromFile, JVal.getProp, jsTruthy])
      · rintro ⟨v2, hv2, h1, h2⟩
        cases Option.some.inj hv2
        simp [JVal.getProp, jsTruthy] at h1
    | arr xs =>
      refine ⟨?_, fun _ => ⟨⟨_, rfl⟩, rfl⟩⟩
      constructor
      · intro h
        exact absurd h (by simp [backupsRestoreFromFile, JVal.getProp, jsTruthy])
      · rintro ⟨v2, hv2, h1, h2⟩
        cases Option.some.inj hv2
        simp [JVal.getProp, jsTruthy] at h1
    | obj kvs =>
      by_cases hc : (jsTruthy ((JVal.obj kvs).getProp "donors")
          && jsTruthy ((JVal.obj kvs).getProp "donations")) = true
      · have h12 := hc
        rw [Bool.and_eq_true] at h12
        constructor
        · exact ⟨fun _ => ⟨JVal.obj kvs, rfl, h12.1, h12.2⟩,
            fun _ => by simp [backupsRestoreFromFile, hc]⟩
        · intro hfail
          exact absurd hfail (by simp [backupsRestoreFromFile, hc])
      · constructor
        · constructor
          · intro h
            exact absurd h (by simp [backupsRestoreFromFile, hc])
          · rintro ⟨v2, hv2, h1, h2⟩
            cases Option.some.inj hv2
            rw [h1, h2] at hc
            exact absurd rfl hc
        · intro _
          refine ⟨⟨"Invalid backup file format.", ?_⟩, ?_⟩
          · simp [backupsRestoreFromFile, hc]
          · simp [backupsRestoreFromFile, hc]

/-- Witness for C7: a file carrying donor and donation arrays succeeds. -/
theorem restoreFromFile_result_witness :
    (backupsRestoreFromFile
      (some (JVal.obj [("donors", JVal.arr []), ("donations", JVal.arr [])])) baseSt).1.success
      = true :=
  (restoreFromFile_result_spec
      (some (JVal.obj [("donors", JVal.arr []), ("donations", JVal.arr [])])) baseSt).1.mpr
    ⟨JVal.obj [("donors", JVal.arr []), ("donations", JVal.arr [])], rfl, rfl, rfl⟩

/-! ## Claim C9: outbox status transitions. -/

/-- A Sent outbox item, as recorded after a successful send. -/
def sentItem : OutboxItem :=
  { id := "outbox-1", status := OutboxStatus.sent, addedAt := "2024-01-01T00:00:00.000Z",
    sentAt := some "2024-01-02T00:00:00.000Z", info := OutboxInfo.receipt "donation-1" }

/-- Counterexample to C9 as stated: `retry` on a Sent item performs the
transition Sent → Ready to Send, which the claim says never occurs; neither
`updateStatus` nor `retry` guards on the current status. -/
theorem outboxRetry_sent_counterexample :
    (({ baseSt with outbox := [sentItem] } : St).outbox.map (fun i => i.status)
        = [OutboxStatus.sent])
    ∧ ((outboxRetry "outbox-1" { baseSt with outbox := [sentItem] }).outbox.map (fun i => i.status)
        = [OutboxStatus.ready])
    ∧ advertisedTransition OutboxStatus.sent OutboxStatus.ready = false
    ∧ OutboxStatus.sent ≠ OutboxStatus.ready := by
  refine ⟨rfl, rfl, rfl, by decide⟩

/-- Claim C9 (amended): the layer applies status writes unconditionally —
`updateStatus(id, st, err)` moves the matching item to `st` whatever its
prior status (recording a non-empty `err`, stamping `sentAt` when `st` is
Sent), and `retry(id)` moves the matching item to Ready to Send and clears
its error whatever its prior status; unmatched items are untouched.  The
advertised machine (Ready → Sent | Failed, Failed → Ready) is what callers
use, but it is not enforced here. -/
theorem outbox_status_spec (s : St) (outboxId : String) (status : OutboxStatus)
    (error : Option String) (nowISO : String) :
    ((outboxUpdateStatus outboxId status error nowISO s).outbox.length = s.outbox.length)
    ∧ (∀ item ∈ s.outbox, item.id = outboxId →
        { item with
          status := status,
          error := (match error with
            | some e => if e = "" then item.error else some e
            | Option.none => item.error),
          sentAt := if status = OutboxStatus.sent then some nowISO else item.sentAt }
          ∈ (outboxUpdateStatus outboxId status error nowISO s).outbox)
    ∧ (∀ item ∈ s.outbox, item.id ≠ outboxId →
        item ∈ (outboxUpdateStatus outboxId status error nowISO s).outbox)
    ∧ ((outboxRetry outboxId s).outbox.length = s.outbox.length)
    ∧ (∀ item ∈ s.outbox, item.id = outboxId →
        { item with status := OutboxStatus.ready, error := Option.none }
          ∈ (outboxRetry outboxId s).outbox)
    ∧ (∀ item ∈ s.outbox, item.id ≠ outboxId → item ∈ (outboxRetry outboxId s).outbox) := by
  refine ⟨by simp [outboxUpdateStatus], ?_, ?_, by simp [outboxRetry], ?_, ?_⟩
  · intro item hm hid
    exact List.mem_map.2 ⟨item, hm, by rw [if_pos hid]⟩
  · intro item hm hid
    exact List.mem_map.2 ⟨item, hm, by rw [if_neg hid]⟩
  · intro item hm hid
    exact List.mem_map.2 ⟨item, hm, by rw [if_pos hid]⟩
  · intro item hm hid
    exact List.mem_map.2 ⟨item, hm, by rw [if_neg hid]⟩

/-- Witness for C9 (amended): retrying the Sent item puts it back to Ready
with no error, and the outbox length is preserved. -/
theorem outbox_status_spec_witness :
    ({ sentItem with status := OutboxStatus.ready, error := Option.none }
        ∈ (outboxRetry "outbox-1" { baseSt with outbox := [sentItem] }).outbox)
    ∧ (outboxRetry "outbox-1" { baseSt with outbox := [sentItem] }).outbox.length
        = ({ baseSt with outbox := [sentItem] } : St).outbox.length := by
  have h := outbox_status_spec { baseSt with outbox := [sentItem] } "outbox-1"
    OutboxStatus.sent Option.none "T"
  exact ⟨h.2.2.2.2.1 sentItem (by decide) rfl, h.2.2.2.1⟩

/-! ## Claim C10: the tags collection stays in sync with settings.tags. -/

/-- Claim C10: every MutationLayer (non-backup) operation preserves
`tags = settings.tags`; moreover every such operation other than the tag
operations and `settings.update` leaves both untouched. -/
theorem tag_sync_preserved (op : Op) (s : St) (hop : op.isBackupOp = false)
    (hsync : s.tags = s.settings.tags) :
    (applyOp op s).tags = (applyOp op s).settings.tags
    ∧ (op.touchesTags = false →
        (applyOp op s).tags = s.tags ∧ (applyOp op s).settings = s.settings) := by
  cases op
  case tagsAdd data now =>
    refine ⟨?_, ?_⟩
    · simp [applyOp, tagsAdd, hsync]
    · intro h
      simp [Op.touchesTags] at h
  case tagsUpdate tag =>
    refine ⟨?_, ?_⟩
    · simp [applyOp, tagsUpdate, hsync]
    · intro h
      simp [Op.touchesTags] at h
  case tagsDelete id =>
    refine ⟨?_, ?_⟩
    · simp [applyOp, tagsDelete, hsync]
    · intro h
      simp [Op.touchesTags] at h
  case settingsUpdate data =>
    refine ⟨rfl, ?_⟩
    intro h
    simp [Op.touchesTags] at h
  case donationsAdd data now nowISO =>
    have ht : (applyOp (Op.donationsAdd data now nowISO) s).tags = s.tags := by
      simp only [applyOp, donationsAdd, outboxAdd, recurringAdd]
      split <;> rfl
    have hs : (applyOp (Op.donationsAdd data now nowISO) s).settings = s.settings := by
      simp only [applyOp, donationsAdd, outboxAdd, recurringAdd]
      split <;> rfl
    exact ⟨by rw [ht, hs]; exact hsync, fun _ => ⟨ht, hs⟩⟩
  case rolesDelete id =>
    have ht : (applyOp (Op.rolesDelete id) s).tags = s.tags := by
      simp only [applyOp, rolesDelete]
      split
      · rfl
      · split <;> rfl
    have hs : (applyOp (Op.rolesDelete id) s).settings = s.settings := by
      simp only [applyOp, rolesDelete]
      split
      · rfl
      · split <;> rfl
    exact ⟨by rw [ht, hs]; exact hsync, fun _ => ⟨ht, hs⟩⟩
  case backupsCreate now nowISO => exact absurd hop (by simp [Op.isBackupOp])
  case backupsRestore backupId => exact absurd hop (by simp [Op.isBackupOp])
  case backupsRestoreFromFile parsed => exact absurd hop (by simp [Op.isBackupOp])
  case backupsDelete backupId => exact absurd hop (by simp [Op.isBackupOp])
  all_goals exact ⟨hsync, fun _ => ⟨rfl, rfl⟩⟩

/-- Witness for C10: a donor deletion keeps the freshly-loaded store's tag
lists in sync. -/
theorem tag_sync_preserved_witness :
    (Op.donorsDelete "donor-1").isBackupOp = false
    ∧ baseSt.tags = baseSt.settings.tags
    ∧ (applyOp (Op.donorsDelete "donor-1") baseSt).tags
        = (applyOp (Op.donorsDelete "donor-1") baseSt).settings.tags :=
  ⟨rfl, rfl, (tag_sync_preserved (Op.donorsDelete "donor-1") baseSt rfl rfl).1⟩

/-! ## Claim C1: donor deletion cascade. -/

/-- Counterexample to C1 as stated: donor deletion cascades only to
donations and pledges; a recurring profile referencing the deleted donor
survives, so an orphaned `donorId` reference remains in the store. -/
theorem donorsDelete_orphans_counterexample :
    refsValid { baseSt with donors := [mockDonor1], recurringProfiles := [mockProfile1] } = true
    ∧ refsValid (donorsDelete "donor-1"
        { baseSt with donors := [mockDonor1], recurringProfiles := [mockProfile1] }) = false
    ∧ (donorsDelete "donor-1"
        { baseSt with donors := [mockDonor1], recurringProfiles := [mockProfile1] }).recurringProfiles
        = [mockProfile1]
    ∧ mockProfile1.donorId = "donor-1"
    ∧ (donorsDelete "donor-1"
        { baseSt with donors := [mockDonor1], recurringProfiles := [mockProfile1] }).donors = [] := by
  refine ⟨by decide, by decide, by decide, rfl, by decide⟩

/-- Claim C1 (amended): `donors.delete`/`deleteBulk` remove the matching
donors and every Donation and Pledge whose `donorId` matches, and preserve
donation→donor and pledge→donor referential validity; but recurring
profiles, outbox items and queued communications are not cleaned and may
keep references to deleted donors. -/
theorem donorsDelete_cascade_spec (s : St) (id : String) (ids : List String) :
    ((donorsDelete id s).donors = s.donors.filter (fun d => d.id ≠ id))
    ∧ ((donorsDelete id s).donations = s.donations.filter (fun dn => dn.donorId ≠ id))
    ∧ ((donorsDelete id s).pledges = s.pledges.filter (fun p => p.donorId ≠ id))
    ∧ (∀ d ∈ (donorsDelete id s).donors, d.id ≠ id)
    ∧ (∀ dn ∈ (donorsDelete id s).donations, dn.donorId ≠ id)
    ∧ (∀ p ∈ (donorsDelete id s).pledges, p.donorId ≠ id)
    ∧ ((∀ dn ∈ s.donations, ∃ d ∈ s.donors, d.id = dn.donorId) →
        ∀ dn ∈ (donorsDelete id s).donations,
          ∃ d ∈ (donorsDelete id s).donors, d.id = dn.donorId)
    ∧ ((∀ p ∈ s.pledges, ∃ d ∈ s.donors, d.id = p.donorId) →
        ∀ p ∈ (donorsDelete id s).pledges,
          ∃ d ∈ (donorsDelete id s).donors, d.id = p.donorId)
    ∧ ((donorsDelete id s).recurringProfiles = s.recurringProfiles)
    ∧ ((donorsDelete id s).outbox = s.outbox)
    ∧ ((donorsDelete id s).communicationQueue = s.communicationQueue)
    ∧ ((donorsDeleteBulk ids s).donors = s.donors.filter (fun d => ¬ d.id ∈ ids))
    ∧ (∀ d ∈ (donorsDeleteBulk ids s).donors, ¬ d.id ∈ ids)
    ∧ (∀ dn ∈ (donorsDeleteBulk ids s).donations, ¬ dn.donorId ∈ ids)
    ∧ (∀ p ∈ (donorsDeleteBulk ids s).pledges, ¬ p.donorId ∈ ids)
    ∧ ((∀ dn ∈ s.donations, ∃ d ∈ s.donors, d.id = dn.donorId) →
        ∀ dn ∈ (donorsDeleteBulk ids s).donations,
          ∃ d ∈ (donorsDeleteBulk ids s).donors, d.id = dn.donorId)
    ∧ ((donorsDeleteBulk ids s).recurringProfiles = s.recurringProfiles) := by
  refine ⟨rfl, rfl, rfl, ?_, ?_, ?_, ?_, ?_, rfl, rfl, rfl, rfl, ?_, ?_, ?_, ?_, rfl⟩
  · intro d hd
    have := List.of_mem_filter hd
    simpa using this
  · intro dn hdn
    have := List.of_mem_filter hdn
    simpa using this
  · intro p hp
    have := List.of_mem_filter hp
    simpa using this
  · intro hall dn hdn
    have hmem := List.mem_of_mem_filter hdn
    have hne : dn.donorId ≠ id := by
      have := List.of_mem_filter hdn
      simpa using this
    obtain ⟨d, hd, hdid⟩ := hall dn hmem
    refine ⟨d, List.mem_filter.2 ⟨hd, ?_⟩, hdid⟩
    simpa using hdid ▸ hne
  · intro hall p hp
    have hmem := List.mem_of_mem_filter hp
    have hne : p.donorId ≠ id := by
      have := List.of_mem_filter hp
      simpa using this
    obtain ⟨d, hd, hdid⟩ := hall p hmem
    refine ⟨d, List.mem_filter.2 ⟨hd, ?_⟩, hdid⟩
    simpa using hdid ▸ hne
  · intro d hd
    have := List.of_mem_filter hd
    simpa using this
  · intro dn hdn
    have := List.of_mem_filter hdn
    simpa using this
  · intro p hp
    have := List.of_mem_filter hp
    simpa using this
  · intro hall dn hdn
    have hmem := List.mem_of_mem_filter hdn
    have hne : ¬ dn.donorId ∈ ids := by
      have := List.of_mem_filter hdn
      simpa using this
    obtain ⟨d, hd, hdid⟩ := hall dn hmem
    refine ⟨d, List.mem_filter.2 ⟨hd, ?_⟩, hdid⟩
    simpa using hdid ▸ hne

/-- A populated store: two donors, their donations, one pledge. -/
def cascadeSt : St :=
  { baseSt with
    donors := [mockDonor1, mockDonor2],
    donations := [mockDonation1, mockDonation2],
    pledges := [mockPledge1] }

/-- Witness for C1 (amended): after deleting Alice, Bob's donation still
points at a surviving donor, and the recurring profiles are untouched. -/
theorem donorsDelete_cascade_spec_witness :
    (∃ d ∈ (donorsDelete "donor-1" cascadeSt).donors, d.id = mockDonation2.donorId)
    ∧ (donorsDelete "donor-1" cascadeSt).recurringProfiles = cascadeSt.recurringProfiles := by
  obtain ⟨h1, h2, h3, h4, h5, h6, h7, h8, h9, h10, h11, h12, h13, h14, h15, h16, h17⟩ :=
    donorsDelete_cascade_spec cascadeSt "donor-1" ["donor-1"]
  refine ⟨h7 ?_ mockDonation2 ?_, h9⟩
  · intro dn hdn
    fin_cases hdn
    · exact ⟨mockDonor1, by decide, rfl⟩
    · exact ⟨mockDonor2, by decide, rfl⟩
  · rw [h2]
    decide

/-! ## Claim C2: the fan-out of `donations.add`. -/

/-- Claim C2: for a donation whose `donorId` matches exactly one existing
donor, `donations.add` appends the donation, appends exactly one history
entry `{date, amount, receiptId}` to that donor, prepends exactly one
Ready-to-Send receipt outbox item for the new donation, and creates exactly
one recurring profile (status Active, `nextDueDate` derived from the
donation date plus one frequency period) precisely when `recurring` is not
`'None'`. -/
theorem donationsAdd_spec (s : St) (data : Donation) (now : Nat) (nowISO : String)
    (pre post : List Donor) (d0 : Donor)
    (hsplit : s.donors = pre ++ d0 :: post)
    (hid : d0.id = data.donorId)
    (huniq : ∀ x ∈ pre ++ post, x.id ≠ data.donorId) :
    ((donationsAdd data now nowISO s).2.donations = s.donations ++ [data])
    ∧ ((donationsAdd data now nowISO s).2.donors
        = pre ++ { d0 with donationHistory := d0.donationHistory
            ++ [{ date := data.date, amount := data.amount, receiptId := data.id }] } :: post)
    ∧ ((donationsAdd data now nowISO s).2.outbox
        = { id := "outbox-" ++ toString now, info := OutboxInfo.receipt data.id,
            status := OutboxStatus.ready, addedAt := nowISO } :: s.outbox)
    ∧ (data.recurring ≠ Recurring.none →
        (donationsAdd data now nowISO s).2.recurringProfiles
          = s.recurringProfiles ++
            [{ id := "rec-" ++ toString now, donorId := data.donorId, amount := data.amount,
               frequency := data.recurring, startDate := data.date,
               nextDueDate := calculateNextDueDate data.date data.recurring,
               status := RecStatus.active, purpose := data.purpose,
               customPurpose := data.customPurpose, method := data.method }])
    ∧ (data.recurring = Recurring.none →
        (donationsAdd data now nowISO s).2.recurringProfiles = s.recurringProfiles) := by
  refine ⟨?_, ?_, ?_, ?_, ?_⟩
  · simp only [donationsAdd, outboxAdd, recurringAdd]
    split <;> rfl
  · have hdonors : (donationsAdd data now nowISO s).2.donors
        = s.donors.map (fun donor => if donor.id = data.donorId then
            { donor with donationHistory := donor.donationHistory ++
                [{ date := data.date, amount := data.amount, receiptId := data.id }] }
          else donor) := by
      simp only [donationsAdd, outboxAdd, recurringAdd]
      split <;> rfl
    rw [hdonors, hsplit, List.map_append, List.map_cons]
    rw [map_eq_self_of pre _ (fun x hx => if_neg (huniq x (List.mem_append_left _ hx)))]
    rw [map_eq_self_of post _ (fun x hx => if_neg (huniq x (List.mem_append_right _ hx)))]
    rw [if_pos hid]
  · simp only [donationsAdd, outboxAdd, recurringAdd]
    split <;> rfl
  · intro h
    simp only [donationsAdd, outboxAdd, recurringAdd]
    rw [if_pos h]
  · intro h
    simp only [donationsAdd, outboxAdd, recurringAdd]
    rw [if_neg (by simp [h])]

/-- The spec's concrete scenario donor `D1` (no donations yet). -/
def donorD1 : Donor :=
  { id := "D1", name := "Donor One", email := "d1@example.com", phone := "111",
    address := "1 First St", joinDate := "2023-01-01", donationHistory := [] }

/-- The spec's concrete donation `R1` for `D1`, not recurring. -/
def donationR1 : Donation :=
  { id := "R1", donorId := "D1", amount := 100, date := "2024-01-01",
    method := Method.online, purpose := Purpose.zakat, recurring := Recurring.none }

/-- A monthly variant of the concrete donation. -/
def donationRM : Donation :=
  { id := "R2", donorId := "D1", amount := 100, date := "2024-01-15",
    method := Method.online, purpose := Purpose.zakat, recurring := Recurring.monthly }

/-- Witness for C2: the spec's §8 scenario — adding `R1` gives `D1` exactly
the history entry `{2024-01-01, 100, R1}` and one Ready-to-Send receipt
outbox item, with no recurring profile; the monthly variant creates exactly
one profile whose next due date is one month after the start date. -/
theorem donationsAdd_spec_witness :
    ((donationsAdd donationR1 7 "T" { baseSt with donors := [donorD1] }).2.donors
      = [{ donorD1 with donationHistory :=
            [{ date := "2024-01-01", amount := 100, receiptId := "R1" }] }])
    ∧ ((donationsAdd donationR1 7 "T" { baseSt with donors := [donorD1] }).2.outbox
      = [{ id := "outbox-7", info := OutboxInfo.receipt "R1",
           status := OutboxStatus.ready, addedAt := "T" }])
    ∧ ((donationsAdd donationR1 7 "T" { baseSt with donors := [donorD1] }).2.recurringProfiles
      = [])
    ∧ ((donationsAdd donationRM 8 "T" { baseSt with donors := [donorD1] }).2.recurringProfiles
      = [{ id := "rec-8", donorId := "D1", amount := 100, frequency := Recurring.monthly,
           startDate := "2024-01-15", nextDueDate := "2024-02-15",
           status := RecStatus.active, purpose := Purpose.zakat, method := Method.online }]) := by
  have h1 := donationsAdd_spec { baseSt with donors := [donorD1] } donationR1 7 "T"
    [] [] donorD1 rfl rfl (by intro x hx; simp at hx)
  have h2 := donationsAdd_spec { baseSt with donors := [donorD1] } donationRM 8 "T"
    [] [] donorD1 rfl rfl (by intro x hx; simp at hx)
  refine ⟨h1.2.1, h1.2.2.1, h1.2.2.2.2 rfl, ?_⟩
  have := h2.2.2.2.1 (by decide)
  exact this.trans (by decide)

/-! ## Claim C3: backup create / restore round trip. -/

/-- A store with one donor, used as the round-trip snapshot. -/
def roundtripSt : St := { baseSt with donors := [mockDonor1] }

/-- Counterexample to C3 as stated ("after any sequence of further
mutations"): (a) an intervening `backups.delete` of the created backup makes
the restore throw instead of restoring; (b) an intervening `backups.create`
in the same millisecond produces a colliding id, and restore then replays
the newer snapshot, not the original one. -/
theorem backup_roundtrip_counterexample :
    (backupsRestore "backup-1"
        (applyOps [Op.backupsDelete "backup-1"] (backupsCreate 1 "T" roundtripSt).2)
      = Except.error "Backup not found")
    ∧ ((backupsRestore "backup-1"
        (applyOps [Op.donorsDelete "donor-1", Op.backupsCreate 1 "T2"]
          (backupsCreate 1 "T" roundtripSt).2)).toOption.map (fun st => st.donors)
      = some [])
    ∧ roundtripSt.donors = [mockDonor1]
    ∧ ([mockDonor1] : List Donor) ≠ [] := by
  refine ⟨rfl, rfl, rfl, by decide⟩

/-- Claim C3 (amended): `backups.create()` followed by any sequence of
mutations that neither deletes the created backup nor creates another
backup with the same generated id, followed by `backups.restore` of the
created id, restores all ten tracked collections to exactly the snapshot
taken at create time; the Backups collection itself is left as the restore
found it. -/
theorem backup_roundtrip_spec (s0 : St) (now : Nat) (nowISO : String) (ops : List Op)
    (hops : opsPreserveBackup ("backup-" ++ toString now) ops = true) :
    backupsRestore (backupsCreate now nowISO s0).1.id
        (applyOps ops (backupsCreate now nowISO s0).2)
      = Except.ok
          { s0 with backups := (applyOps ops (backupsCreate now nowISO s0).2).backups } := by
  have hfind0 : (backupsCreate now nowISO s0).2.backups.find?
      (fun x => x.id = "backup-" ++ toString now) = some (backupsCreate now nowISO s0).1 := by
    simp [backupsCreate, List.find?]
  have hfind := find?_backups_applyOps ops (backupsCreate now nowISO s0).2
    ("backup-" ++ toString now) (backupsCreate now nowISO s0).1 hops hfind0
  show backupsRestore ("backup-" ++ toString now)
      (applyOps ops (backupsCreate now nowISO s0).2) = _
  simp only [backupsRestore, hfind]
  rw [show (backupsCreate now nowISO s0).1.data = encodeState s0 from rfl]
  rw [restoreStateFromData_encodeState]

/-- Witness for C3 (amended): create, delete the donor, restore — the donor
collection comes back to the snapshot and the backup list is untouched. -/
theorem backup_roundtrip_spec_witness :
    opsPreserveBackup "backup-1" [Op.donorsDelete "donor-1"] = true
    ∧ backupsRestore "backup-1"
        (applyOps [Op.donorsDelete "donor-1"] (backupsCreate 1 "T" roundtripSt).2)
      = Except.ok
          { roundtripSt with
            backups := (applyOps [Op.donorsDelete "donor-1"]
              (backupsCreate 1 "T" roundtripSt).2).backups } :=
  ⟨rfl, backup_roundtrip_spec roundtripSt 1 "T" [Op.donorsDelete "donor-1"] rfl⟩

/-! ## Claim C8: `backups.restore` semantics. -/

/-- A backup whose stored JSON is the empty object. -/
def emptyDataBackup : Backup :=
  { id := "b0", date := "2024-01-01", size := 2, data := JVal.obj [] }

/-- Counterexample to C8 as stated: when the `settings` field is missing
from the backup JSON, restore does not default it to an empty collection —
it falls back to the built-in `mockSettings`, which carries two
communication templates and four tags. -/
theorem backupsRestore_missing_settings_counterexample :
    ((backupsRestore "b0" { baseSt with backups := [emptyDataBackup] }).toOption.map
        (fun st => st.settings) = some mockSettings)
    ∧ mockSettings.communicationTemplates ≠ []
    ∧ mockSettings.tags ≠ [] := by
  refine ⟨rfl, by decide, by decide⟩

/-- Claim C8 (amended): `restore(backupId)` throws exactly when the id is
unknown; otherwise it overwrites the store from the backup's JSON — a
snapshot written by `create` is reproduced exactly — with every missing
list collection defaulting to the empty list, a missing `settings` field
defaulting to the built-in `mockSettings`, and the Backups collection never
overwritten. -/
theorem backupsRestore_spec (s : St) (backupId : String) (b : Backup) (snap : St)
    (data : JVal) :
    (s.backups.find? (fun x => x.id = backupId) = Option.none →
      backupsRestore backupId s = Except.error "Backup not found")
    ∧ (s.backups.find? (fun x => x.id = backupId) = some b →
      backupsRestore backupId s = Except.ok (restoreStateFromData b.data s))
    ∧ (s.backups.find? (fun x => x.id = backupId) = some b → b.data = encodeState snap →
      backupsRestore backupId s = Except.ok { snap with backups := s.backups })
    ∧ (data.getProp "donors" = Option.none → (restoreStateFromData data s).donors = [])
    ∧ (data.getProp "donations" = Option.none → (restoreStateFromData data s).donations = [])
    ∧ (data.getProp "pledges" = Option.none → (restoreStateFromData data s).pledges = [])
    ∧ (data.getProp "recurringProfiles" = Option.none →
        (restoreStateFromData data s).recurringProfiles = [])
    ∧ (data.getProp "users" = Option.none → (restoreStateFromData data s).users = [])
    ∧ (data.getProp "roles" = Option.none → (restoreStateFromData data s).roles = [])
    ∧ (data.getProp "settings" = Option.none →
        (restoreStateFromData data s).settings = mockSettings)
    ∧ (data.getProp "outbox" = Option.none → (restoreStateFromData data s).outbox = [])
    ∧ (data.getProp "communicationQueue" = Option.none →
        (restoreStateFromData data s).communicationQueue = [])
    ∧ (data.getProp "tags" = Option.none → (restoreStateFromData data s).tags = [])
    ∧ (restoreStateFromData data s).backups = s.backups := by
  refine ⟨?_, ?_, ?_, ?_, ?_, ?_, ?_, ?_, ?_, ?_, ?_, ?_, ?_, rfl⟩
  · intro h
    simp [backupsRestore, h]
  · intro h
    simp [backupsRestore, h]
  · intro h hdata
    simp only [backupsRestore, h, hdata]
    rw [restoreStateFromData_encodeState]
  · intro h
    simp [restoreStateFromData, fieldOr, h, decListD, decodeListWith, decodeAll]
  · intro h
    simp [restoreStateFromData, fieldOr, h, decListD, decodeListWith, decodeAll]
  · intro h
    simp [restoreStateFromData, fieldOr, h, decListD, decodeListWith, decodeAll]
  · intro h
    simp [restoreStateFromData, fieldOr, h, decListD, decodeListWith, decodeAll]
  · intro h
    simp [restoreStateFromData, fieldOr, h, decListD, decodeListWith, decodeAll]
  · intro h
    simp [restoreStateFromData, fieldOr, h, decListD, decodeListWith, decodeAll]
  · intro h
    simp [restoreStateFromData, fieldOr, h, decodeSettings_encode]
  · intro h
    simp [restoreStateFromData, fieldOr, h, decListD, decodeListWith, decodeAll]
  · intro h
    simp [restoreStateFromData, fieldOr, h, decListD, decodeListWith, decodeAll]
  · intro h
    simp [restoreStateFromData, fieldOr, h, decListD, decodeListWith, decodeAll]

/-- A backup carrying an encoded one-donor snapshot. -/
def encodedBackup : Backup :=
  { id := "backup-9", date := "T", size := 0, data := encodeState roundtripSt }

/-- Witness for C8 (amended): restoring the encoded snapshot reproduces it
(backups untouched), and an empty-object restore falls back to
`mockSettings`. -/
theorem backupsRestore_spec_witness :
    (backupsRestore "backup-9" { baseSt with backups := [encodedBackup] }
        = Except.ok { roundtripSt with backups := [encodedBackup] })
    ∧ (restoreStateFromData (JVal.obj []) baseSt).settings = mockSettings := by
  have h := backupsRestore_spec { baseSt with backups := [encodedBackup] } "backup-9"
    encodedBackup roundtripSt (JVal.obj [])
  exact ⟨h.2.2.1 rfl rfl, h.2.2.2.2.2.2.2.2.2.1 rfl⟩
